import Mathlib

/-!
# roboptim-shared-tests: benchmark functions and their derivatives

A shallow embedding of the function objects defined by the shared solver tests

* `hs071-nonscalar-constraints.hh` (objective `F`, constraint `NonScalarG`),
* `distance-to-sphere.cc` (residual `F` fed to a sum of squares),
* `schittkowski/problem_27.cc` (objective `F`, constraint `G`),
* `schittkowski/problem_79.cc` (objective `F`, constraint `G`),

followed by theorems comparing the hand-written derivative code with the
derivatives of the value code, and the literal expected results with the values
the code computes.

Conventions of the embedding.

* A C++ `double` is an element of a field `K`.  The definitions are written once
  for every field, so they run on `ℚ`; the theorems about derivatives and
  minima instantiate them at `ℝ`.  Rounding is not modelled.
* A dense Eigen vector of size `n` is a function `Fin n → K`, a dense matrix a
  function `Fin n → Fin m → K`.  Every `impl_*` method receives the output
  container it writes to and returns the container after the call; what the
  container held before the call is therefore an explicit argument.
* A sparse Eigen vector is its list of stored `(index, value)` entries, kept in
  increasing index order as Eigen keeps it.
* `cos`, `sin` and `sqrt` of the C library are arguments of the definitions that
  call them; the theorems pass `Real.cos`, `Real.sin`.
* The unused `size_type` argument of a scalar function is kept as an `Int`.
* A row index (`size_type`) is an `Int`; a call to `abort ()` is the result `none`.
* The problem class of roboptim-core is a record of the objective, the
  constraint entries, the variable bounds and the starting point.
* The result of the solver is an inductive type with one constructor for each
  alternative of the variant; a test case leaves the list of the checks it
  executed and a flag telling whether an exception escaped from it.
-/

namespace roboptim

variable {K : Type} [Field K]

/-! ## Containers -/

/-- Eigen `setZero ()` on a dense vector: every coefficient becomes zero. -/
def setZero {ι : Type} (_v : ι → K) : ι → K := fun _ => 0

/-- Eigen `setZero ()` on a dense matrix. -/
def setZeroMatrix {ι κ : Type} (_h : ι → κ → K) : ι → κ → K := fun _ _ => 0

/-- Dense matrix assignment `h (i, j) = a`. -/
def setCoeff {n m : ℕ} (h : Fin n → Fin m → K) (i : Fin n) (j : Fin m) (a : K) :
    Fin n → Fin m → K :=
  Function.update h i (Function.update (h i) j a)

/-- Storage of an Eigen `SparseVector`: the declared size and the stored
`(index, value)` entries. -/
structure SparseVector (K : Type) where
  size : ℕ
  data : List (ℕ × K)

/-- A sparse vector with no stored entry. -/
def SparseVector.empty (K : Type) (n : ℕ) : SparseVector K := ⟨n, []⟩

/-- Lookup in the entry list: the first stored value at index `i`, zero when the
index is not stored. -/
def coeffData : List (ℕ × K) → ℕ → K
  | [], _ => 0
  | (j, b) :: rest, i => if j = i then b else coeffData rest i

/-- Entry list after `coeffRef (i) = a`: an entry stored at `i` is overwritten,
otherwise a new entry is placed at its sorted position. -/
def coeffRefData : List (ℕ × K) → ℕ → K → List (ℕ × K)
  | [], i, a => [(i, a)]
  | (j, b) :: rest, i, a =>
    if j < i then (j, b) :: coeffRefData rest i a
    else if j = i then (i, a) :: rest
    else (i, a) :: (j, b) :: rest

/-- Entry list after `insert (i) = a`: a new entry is placed behind the stored
entries of index at most `i`, without looking for an entry already at `i`. -/
def insertData : List (ℕ × K) → ℕ → K → List (ℕ × K)
  | [], i, a => [(i, a)]
  | (j, b) :: rest, i, a =>
    if j ≤ i then (j, b) :: insertData rest i a else (i, a) :: (j, b) :: rest

/-- Eigen `coeff (i)`: read a coefficient of a sparse vector. -/
def SparseVector.coeff (v : SparseVector K) (i : ℕ) : K := coeffData v.data i

/-- Eigen `v.coeffRef (i) = a`. -/
def SparseVector.coeffRef (v : SparseVector K) (i : ℕ) (a : K) : SparseVector K :=
  ⟨v.size, coeffRefData v.data i a⟩

/-- Eigen `v.insert (i) = a`. -/
def SparseVector.insert (v : SparseVector K) (i : ℕ) (a : K) : SparseVector K :=
  ⟨v.size, insertData v.data i a⟩

/-- The indices a sparse vector stores. -/
def SparseVector.indices (v : SparseVector K) : List ℕ := v.data.map Prod.fst

/-- Value of roboptim-core's `SumOfC1Squares` built on a function with three
outputs: the sum of the squares of the components of the function's value. -/
def sumOfSquares (v : Fin 3 → K) : K := v 0 * v 0 + v 1 * v 1 + v 2 * v 2

/-- Modelled from the spec: the `ExpectedResult` record of `common.hh` (starting
objective value, expected solution vector, expected objective value at the
solution). -/
structure ExpectedResult (K : Type) (n : ℕ) where
  f0 : K
  x : Fin n → K
  fx : K

/-! ## hs071-nonscalar-constraints.hh -/

namespace hs071

/-- The method `F::impl_compute`. -/
def F.impl_compute (result : Fin 1 → K) (x : Fin 4 → K) : Fin 1 → K :=
  let result := setZero result
  Function.update result 0 (x 0 * x 3 * (x 0 + x 1 + x 2) + x 3)

/-- The method `F::impl_gradient`. -/
def F.impl_gradient (grad : Fin 4 → K) (x : Fin 4 → K) (_s : Int) : Fin 4 → K :=
  let grad := setZero grad
  let grad := Function.update grad 0 (x 0 * x 3 + x 3 * (x 0 + x 1 + x 2))
  let grad := Function.update grad 1 (x 0 * x 3)
  let grad := Function.update grad 2 (x 0 * x 3 + 1)
  let grad := Function.update grad 3 (x 0 * (x 0 + x 1 + x 2))
  grad

/-- The method `F::impl_hessian`. -/
def F.impl_hessian (h : Fin 4 → Fin 4 → K) (x : Fin 4 → K) (_s : Int) :
    Fin 4 → Fin 4 → K :=
  let h := setZeroMatrix h
  let h := setCoeff h 0 0 (2 * x 3)
  let h := setCoeff h 0 1 (x 3)
  let h := setCoeff h 0 2 (x 3)
  let h := setCoeff h 0 3 (2 * x 0 + x 1 + x 2)
  let h := setCoeff h 1 0 (x 3)
  let h := setCoeff h 1 1 0
  let h := setCoeff h 1 2 0
  let h := setCoeff h 1 3 (x 0)
  let h := setCoeff h 2 0 (x 3)
  let h := setCoeff h 2 1 0
  let h := setCoeff h 2 2 0
  let h := setCoeff h 2 3 (x 1)
  let h := setCoeff h 3 0 (2 * x 0 + x 1 + x 2)
  let h := setCoeff h 3 1 (x 0)
  let h := setCoeff h 3 2 (x 0)
  let h := setCoeff h 3 3 0
  h

/-- The method `NonScalarG::impl_compute`. -/
def NonScalarG.impl_compute (res : Fin 2 → K) (x : Fin 4 → K) : Fin 2 → K :=
  let res := setZero res
  let res := Function.update res 0 (x 0 * x 1 * x 2 * x 3)
  let res := Function.update res 1 (x 0 * x 0 + x 1 * x 1 + x 2 * x 2 + x 3 * x 3)
  res

/-- The method `NonScalarG::impl_gradient`. -/
def NonScalarG.impl_gradient (grad : Fin 4 → K) (x : Fin 4 → K) (s : Int) : Fin 4 → K :=
  let grad := setZero grad
  if s = 0 then
    let grad := Function.update grad 0 (x 1 * x 2 * x 3)
    let grad := Function.update grad 1 (x 0 * x 2 * x 3)
    let grad := Function.update grad 2 (x 0 * x 1 * x 3)
    let grad := Function.update grad 3 (x 0 * x 1 * x 2)
    grad
  else
    let grad := Function.update grad 0 (2 * x 0)
    let grad := Function.update grad 1 (2 * x 1)
    let grad := Function.update grad 2 (2 * x 2)
    let grad := Function.update grad 3 (2 * x 3)
    grad

/-- The method `NonScalarG::impl_hessian`. -/
def NonScalarG.impl_hessian (h : Fin 4 → Fin 4 → K) (x : Fin 4 → K) (s : Int) :
    Fin 4 → Fin 4 → K :=
  let h := setZeroMatrix h
  if s = 0 then
    let h := setCoeff h 0 0 0
    let h := setCoeff h 0 1 (x 2 * x 3)
    let h := setCoeff h 0 2 (x 1 * x 3)
    let h := setCoeff h 0 3 (x 1 * x 2)
    let h := setCoeff h 1 0 (x 2 * x 3)
    let h := setCoeff h 1 1 0
    let h := setCoeff h 1 2 (x 0 * x 3)
    let h := setCoeff h 1 3 (x 0 * x 2)
    let h := setCoeff h 2 0 (x 1 * x 3)
    let h := setCoeff h 2 1 (x 0 * x 3)
    let h := setCoeff h 2 2 0
    let h := setCoeff h 2 3 (x 0 * x 1)
    let h := setCoeff h 3 0 (x 1 * x 2)
    let h := setCoeff h 3 1 (x 0 * x 2)
    let h := setCoeff h 3 2 (x 0 * x 1)
    let h := setCoeff h 3 3 0
    h
  else
    let h := setCoeff h 0 0 2
    let h := setCoeff h 0 1 0
    let h := setCoeff h 0 2 0
    let h := setCoeff h 0 3 0
    let h := setCoeff h 1 0 0
    let h := setCoeff h 1 1 2
    let h := setCoeff h 1 2 0
    let h := setCoeff h 1 3 0
    let h := setCoeff h 2 0 0
    let h := setCoeff h 2 1 0
    let h := setCoeff h 2 2 2
    let h := setCoeff h 2 3 0
    let h := setCoeff h 3 0 0
    let h := setCoeff h 3 1 0
    let h := setCoeff h 3 2 0
    let h := setCoeff h 3 3 2
    h

/-- The starting point set by `initialize_problem`. -/
def start : Fin 4 → K := ![1, 5, 5, 1]

end hs071

/-! ## distance-to-sphere.cc -/

namespace distanceToSphere

/-- The constant `ExpectedResult::x0`. -/
def ExpectedResult.x0 : Fin 2 → K := ![0, 0]

/-- The constant `ExpectedResult::fx0`. -/
def ExpectedResult.fx0 : K := 4.8974713057829096

/-- The constant `ExpectedResult::x`. -/
def ExpectedResult.x : Fin 2 → K := ![-1.5, -1.2]

/-- The constant `ExpectedResult::fx`. -/
def ExpectedResult.fx : K := 1.0

/-- The state of an object of class `F`: its member `point_`. -/
structure F (K : Type) where
  point_ : Fin 3 → K

/-- The static method `F::sphericalCoordinates`. -/
def F.sphericalCoordinates (cos sin : K → K) (res : Fin 3 → K) (theta phi : K) : Fin 3 → K :=
  let res := Function.update res 0 (cos theta * cos phi)
  let res := Function.update res 1 (sin theta * cos phi)
  let res := Function.update res 2 (sin phi)
  res

/-- The constructor `F::F ()`.  The argument `point_` is what the freshly
allocated member `point_ (3)` holds before it is filled. -/
def F.new (cos sin : K → K) (point_ : Fin 3 → K) : F K :=
  let point_ := F.sphericalCoordinates cos sin point_ (ExpectedResult.x 0) (ExpectedResult.x 1)
  let point_ := fun i => point_ i * 2
  ⟨point_⟩

/-- The method `F::impl_compute`. -/
def F.impl_compute (cos sin : K → K) (self : F K) (result : Fin 3 → K) (x : Fin 2 → K) :
    Fin 3 → K :=
  let result := setZero result
  let theta := x 0
  let phi := x 1
  let result := F.sphericalCoordinates cos sin result theta phi
  fun i => result i - self.point_ i

/-- The method `F::impl_gradient`; `none` is the call to `abort ()`. -/
def F.impl_gradient (cos sin : K → K) (_self : F K) (gradient : Fin 2 → K) (x : Fin 2 → K)
    (functionId : Int) : Option (Fin 2 → K) :=
  let theta := x 0
  let phi := x 1
  if functionId = 0 then
    let gradient := Function.update gradient 0 (-sin theta * cos phi)
    let gradient := Function.update gradient 1 (-cos theta * sin phi)
    some gradient
  else if functionId = 1 then
    let gradient := Function.update gradient 0 (cos theta * cos phi)
    let gradient := Function.update gradient 1 (-sin theta * sin phi)
    some gradient
  else if functionId = 2 then
    let gradient := Function.update gradient 0 0
    let gradient := Function.update gradient 1 (cos phi)
    some gradient
  else
    none

end distanceToSphere

/-! ## schittkowski/problem_27.cc -/

namespace problem27

/-- The constant `ExpectedResult::f0`. -/
def ExpectedResult.f0 : K := 4.01

/-- The constant `ExpectedResult::x`. -/
def ExpectedResult.x : Fin 3 → K := ![-1, 1, 0]

/-- The constant `ExpectedResult::fx`. -/
def ExpectedResult.fx : K := 0.04

/-- The method `F<T>::impl_compute`. -/
def F.impl_compute (result : Fin 1 → K) (x : Fin 3 → K) : Fin 1 → K :=
  Function.update result 0 (0.01 * (x 0 - 1) ^ 2 + (x 1 - x 0 * x 0) ^ 2)

/-- The specialization `F<EigenMatrixSparse>::impl_gradient`. -/
def F.impl_gradient_sparse (grad : SparseVector K) (x : Fin 3 → K) (_s : Int) :
    SparseVector K :=
  let grad := grad.insert 0 (4 * x 0 ^ 3 - 4 * x 0 * x 1 + 0.02 * x 0 - 0.02)
  let grad := grad.insert 1 (-2 * x 0 * x 0 + 2 * x 1)
  let grad := grad.insert 2 0
  grad

/-- The generic (dense) method `F<T>::impl_gradient`. -/
def F.impl_gradient (grad : Fin 3 → K) (x : Fin 3 → K) (_s : Int) : Fin 3 → K :=
  let grad := Function.update grad 0 (4 * x 0 ^ 3 - 4 * x 0 * x 1 + 0.02 * x 0 - 0.02)
  let grad := Function.update grad 1 (-2 * x 0 * x 0 + 2 * x 1)
  let grad := Function.update grad 2 0
  grad

/-- The method `G<T>::impl_compute`. -/
def G.impl_compute (result : Fin 1 → K) (x : Fin 3 → K) : Fin 1 → K :=
  Function.update result 0 (x 0 + x 2 * x 2 + 1)

/-- The specialization `G<EigenMatrixSparse>::impl_gradient`. -/
def G.impl_gradient_sparse (grad : SparseVector K) (x : Fin 3 → K) (_s : Int) :
    SparseVector K :=
  let grad := grad.insert 0 1
  let grad := grad.insert 1 0
  let grad := grad.insert 2 (2 * x 2)
  grad

/-- The generic (dense) method `G<T>::impl_gradient`. -/
def G.impl_gradient (grad : Fin 3 → K) (x : Fin 3 → K) (_s : Int) : Fin 3 → K :=
  let grad := Function.update grad 0 1
  let grad := Function.update grad 1 0
  let grad := Function.update grad 2 (2 * x 2)
  grad

/-- The starting point of the test case `schittkowski_problem27`. -/
def start : Fin 3 → K := ![2, 2, 2]

end problem27

/-! ## schittkowski/problem_79.cc -/

namespace problem79

/-- The method `F<T>::impl_compute`. -/
def F.impl_compute (result : Fin 1 → K) (x : Fin 5 → K) : Fin 1 → K :=
  Function.update result 0
    ((x 0 - 1) ^ 2 + (x 0 - x 1) ^ 2 + (x 1 - x 2) ^ 2 + (x 2 - x 3) ^ 4 + (x 3 - x 4) ^ 4)

/-- The specialization `F<EigenMatrixSparse>::impl_gradient`. -/
def F.impl_gradient_sparse (grad : SparseVector K) (x : Fin 5 → K) (_s : Int) :
    SparseVector K :=
  let grad := grad.coeffRef 0 (2 * (x 0 - 1) + 2 * (x 0 - x 1))
  let grad := grad.coeffRef 1 (-2 * (x 0 - x 1) + 2 * (x 1 - x 2))
  let grad := grad.coeffRef 2 (-2 * (x 1 - x 2) + 4 * (x 2 - x 3) ^ 3)
  let grad := grad.coeffRef 3 (-4 * (x 2 - x 3) ^ 3 + 4 * (x 3 - x 4) ^ 3)
  let grad := grad.coeffRef 4 (-4 * (x 3 - x 4) ^ 3)
  grad

/-- The generic (dense) method `F<T>::impl_gradient`. -/
def F.impl_gradient (grad : Fin 5 → K) (x : Fin 5 → K) (_s : Int) : Fin 5 → K :=
  let grad := Function.update grad 0 (2 * (x 0 - 1) + 2 * (x 0 - x 1))
  let grad := Function.update grad 1 (-2 * (x 0 - x 1) + 2 * (x 1 - x 2))
  let grad := Function.update grad 2 (-2 * (x 1 - x 2) + 4 * (x 2 - x 3) ^ 3)
  let grad := Function.update grad 3 (-4 * (x 2 - x 3) ^ 3 + 4 * (x 3 - x 4) ^ 3)
  let grad := Function.update grad 4 (-4 * (x 3 - x 4) ^ 3)
  grad

/-- The method `G<T>::impl_compute`. -/
def G.impl_compute (sqrt : K → K) (result : Fin 3 → K) (x : Fin 5 → K) : Fin 3 → K :=
  let result := Function.update result 0 (x 0 + x 1 ^ 2 + x 2 ^ 3 - 2 - 3 * sqrt 2)
  let result := Function.update result 1 (x 1 - x 2 ^ 2 + x 3 + 2 - 2 * sqrt 2)
  let result := Function.update result 2 (x 0 * x 4 - 2)
  result

/-- The specialization `G<EigenMatrixSparse>::impl_gradient`. -/
def G.impl_gradient_sparse (grad : SparseVector K) (x : Fin 5 → K) (functionId : Int) :
    SparseVector K :=
  if functionId = 0 then
    let grad := grad.coeffRef 0 1
    let grad := grad.coeffRef 1 (2 * x 1)
    let grad := grad.coeffRef 2 (3 * x 2 ^ 2)
    grad
  else if functionId = 1 then
    let grad := grad.coeffRef 1 1
    let grad := grad.coeffRef 2 (-2 * x 2)
    let grad := grad.coeffRef 3 1
    grad
  else if functionId = 2 then
    let grad := grad.coeffRef 0 (x 4)
    let grad := grad.coeffRef 4 (x 0)
    grad
  else
    grad

/-- The generic (dense) method `G<T>::impl_gradient`. -/
def G.impl_gradient (grad : Fin 5 → K) (x : Fin 5 → K) (functionId : Int) : Fin 5 → K :=
  let grad := setZero grad
  if functionId = 0 then
    let grad := Function.update grad 0 1
    let grad := Function.update grad 1 (2 * x 1)
    let grad := Function.update grad 2 (3 * x 2 ^ 2)
    grad
  else if functionId = 1 then
    let grad := Function.update grad 1 1
    let grad := Function.update grad 2 (-2 * x 2)
    let grad := Function.update grad 3 1
    grad
  else if functionId = 2 then
    let grad := Function.update grad 0 (x 4)
    let grad := Function.update grad 4 (x 0)
    grad
  else
    grad

/-- The record `expectedResult` filled by the test case `schittkowski_problem79`. -/
def expectedResult : ExpectedResult K 5 where
  f0 := 1
  x := ![1.191127, 1.362603, 1.472818, 1.635017, 1.679081]
  fx := 0.0787768209

/-- The starting point of the test case `schittkowski_problem79`. -/
def start : Fin 5 → K := ![2, 2, 2, 2, 2]

end problem79

/-! ## Problems -/

/-- Modelled from the spec: an interval bound `[lo, hi]`, a closed range that may
be unbounded on one side (roboptim-core's `Function::interval_t`, whose infinite
ends are the infinities of `double`). -/
structure Interval (K : Type) where
  lo : WithBot K
  hi : WithTop K

/-- Modelled from the spec: `Function::makeInterval (l, u)`, the closed range
`[l, u]`. -/
def makeInterval (l u : K) : Interval K := ⟨(l : K), (u : K)⟩

/-- Modelled from the spec: `Function::makeLowerInterval (l)`, the range
`[l, +∞)`. -/
def makeLowerInterval (l : K) : Interval K := ⟨(l : K), ⊤⟩

/-- The value `v` lies in the interval. -/
def Interval.contains [LE K] (b : Interval K) (v : K) : Prop :=
  b.lo ≤ (v : WithBot K) ∧ (v : WithTop K) ≤ b.hi

/-- Modelled from the spec: what a problem sees of a Differentiable Function, its
input dimension, its output dimension and its display name. -/
structure FunctionObject where
  inputSize : ℕ
  outputSize : ℕ
  name : String

/-- Modelled from the spec: a constraint entry, a function with its interval
bounds and its scale factors. -/
structure Constraint (K : Type) where
  function : FunctionObject
  bounds : List (Interval K)
  scales : List K

/-- Modelled from the spec: a Constrained Problem, an objective with its
constraint entries, one bound per variable and an optional starting point
(roboptim-core's `Problem`). -/
structure Problem (K : Type) where
  function : FunctionObject
  constraints : List (Constraint K)
  argumentBounds : List (Interval K)
  startingPoint : Option (List K)

/-- Modelled from the spec: a problem just built on an objective has no
constraint, unrestricted variable bounds and no starting point. -/
def Problem.new (f : FunctionObject) : Problem K :=
  ⟨f, [], List.replicate f.inputSize ⟨⊥, ⊤⟩, none⟩

/-- Modelled from the spec: `addConstraint (function, intervals, scales)` appends
a constraint entry; a number of intervals or of scales different from the
function's output dimension is a fatal error, here `none`. -/
def Problem.addConstraint (pb : Problem K) (g : FunctionObject) (bounds : List (Interval K))
    (scales : List K) : Option (Problem K) :=
  if bounds.length = g.outputSize ∧ scales.length = g.outputSize then
    some { pb with constraints := pb.constraints ++ [⟨g, bounds, scales⟩] }
  else
    none

namespace hs071

/-- The constructor `F::F ()`: four inputs, one output. -/
def F.new : FunctionObject := ⟨4, 1, "a * d * (a + b + c) + d"⟩

/-- The constructor `NonScalarG::NonScalarG ()`: four inputs, two outputs. -/
def NonScalarG.new : FunctionObject :=
  ⟨4, 2, "a * b * c * d\na * a + b * b + c * c + d * d"⟩

/-- The function template `initialize_problem`.  The argument `alloc` gives what
each entry of the freshly allocated vector `start` holds before it is assigned;
`none` is the fatal error of `addConstraint`. -/
def initialize_problem (pb : Problem K) (alloc : ℕ → K) : Option (Problem K) :=
  let pb := (List.range pb.function.inputSize).foldl
    (fun pb i => { pb with argumentBounds := pb.argumentBounds.set i (makeInterval 1 5) }) pb
  let g2 := NonScalarG.new
  let bounds : List (Interval K) := []
  let bounds := bounds ++ [makeLowerInterval 25]
  let bounds := bounds ++ [makeInterval 40 40]
  let scales : List K := []
  let scales := scales ++ [1]
  let scales := scales ++ [1]
  match pb.addConstraint g2 bounds scales with
  | none => none
  | some pb =>
    let start := (List.range pb.function.inputSize).map alloc
    let start := start.set 0 1
    let start := start.set 1 5
    let start := start.set 2 5
    let start := start.set 3 1
    some { pb with startingPoint := some start }

end hs071

/-! ## Result validation -/

/-- Modelled from the spec: the tags of a solver result, in the order of the
alternatives of the result variant (roboptim-core's enumeration `solutions`). -/
inductive Solutions where
  | SOLVER_NO_SOLUTION
  | SOLVER_VALUE
  | SOLVER_VALUE_WARNINGS
  | SOLVER_ERROR
  deriving DecidableEq

/-- Modelled from the spec: the Result, a tagged variant over no solution, a
solution, a solution with warnings and an error.  The two solved alternatives
carry a solution vector of length `n` and an objective value vector of length
`m`; the error carries its diagnostic message; no solution carries nothing. -/
inductive SolverResult (K : Type) (n m : ℕ) where
  | noSolution
  | result (x : Fin n → K) (value : Fin m → K)
  | resultWithWarnings (x : Fin n → K) (value : Fin m → K)
  | solverError (what : String)

/-- The tag `res.which ()` of a result. -/
def SolverResult.which {K : Type} {n m : ℕ} : SolverResult K n m → Solutions
  | .noSolution => .SOLVER_NO_SOLUTION
  | .result _ _ => .SOLVER_VALUE
  | .resultWithWarnings _ _ => .SOLVER_VALUE_WARNINGS
  | .solverError _ => .SOLVER_ERROR

/-- Boost `boost::get<Result> (res)`: the payload when the variant holds a
`Result`; `none` stands for the exception `bad_get`. -/
def SolverResult.getResult {K : Type} {n m : ℕ} :
    SolverResult K n m → Option ((Fin n → K) × (Fin m → K))
  | .result x value => some (x, value)
  | _ => none

/-- Boost `boost::get<ResultWithWarnings> (res)`; `none` stands for the exception
`bad_get`. -/
def SolverResult.getResultWithWarnings {K : Type} {n m : ℕ} :
    SolverResult K n m → Option ((Fin n → K) × (Fin m → K))
  | .resultWithWarnings x value => some (x, value)
  | _ => none

/-- Boost `boost::get<SolverError> (res)`: the error when the variant holds a
`SolverError`, of which the message is kept; `none` stands for the exception
`bad_get`. -/
def SolverResult.getSolverError {K : Type} {n m : ℕ} : SolverResult K n m → Option String
  | .solverError what => some what
  | _ => none

/-- A check executed by a test case: `BOOST_CHECK_CLOSE (left, right, tolerance)`
or `BOOST_CHECK_EQUAL (left, right)` on two tags. -/
inductive Check (R : Type) where
  | close (left right tolerance : R)
  | equal (left right : Solutions)

/-- Whether a check passes.  Boost reads the tolerance of `BOOST_CHECK_CLOSE` as
a percentage and compares the difference of the operands with both of them. -/
def Check.passes {R : Type} [LinearOrderedField R] : Check R → Bool
  | .close left right tolerance =>
    decide (|left - right| ≤ tolerance / 100 * |left| ∧
      |left - right| ≤ tolerance / 100 * |right|)
  | .equal left right => decide (left = right)

/-- Whether a check compares a number with an expected number. -/
def Check.isClose {R : Type} : Check R → Bool
  | .close _ _ _ => true
  | .equal _ _ => false

/-- What a test case leaves behind: the checks it executed, in order, and whether
an exception escaped from it. -/
structure Outcome (R : Type) where
  checks : List (Check R)
  thrown : Bool

/-- The verdict of a test case: no exception escaped and every executed check
passed. -/
def Outcome.success {R : Type} [LinearOrderedField R] (o : Outcome R) : Bool :=
  !o.thrown && o.checks.all Check.passes

namespace distanceToSphere

/-- The local constant `check_tol` of the test case `distanceToSphere_problem1`. -/
def check_tol {R : Type} [LinearOrderedField R] : R := 1e-2

/-- The checks on a solution found, the same statements in the cases
`SOLVER_VALUE` and `SOLVER_VALUE_WARNINGS`: the loop on the components of
`result.x`, then the check on `result.value[0]`. -/
def checkSolution {R : Type} [LinearOrderedField R] (x : Fin 2 → R) (value : Fin 1 → R) :
    List (Check R) :=
  (List.finRange 2).map (fun i => Check.close (x i) (ExpectedResult.x i) check_tol) ++
    [Check.close (value 0) ExpectedResult.fx check_tol]

/-- The `switch (res.which ())` that ends the test case
`distanceToSphere_problem1`, as a function of the result `res` of the solver. -/
def processResult {R : Type} [LinearOrderedField R] (res : SolverResult R 2 1) : Outcome R :=
  match res.which with
  | .SOLVER_VALUE =>
    match res.getResult with
    | none => ⟨[], true⟩
    | some (x, value) => ⟨checkSolution x value, false⟩
  | .SOLVER_VALUE_WARNINGS =>
    match res.getResultWithWarnings with
    | none => ⟨[], true⟩
    | some (x, value) => ⟨checkSolution x value, false⟩
  | .SOLVER_NO_SOLUTION | .SOLVER_ERROR =>
    match res.getSolverError with
    | none => ⟨[], true⟩
    | some _ => ⟨[Check.equal res.which .SOLVER_VALUE], false⟩

end distanceToSphere

/-! ## Derivatives -/

/-- The number `d` is the partial derivative of `f` with respect to the `j`-th
variable at the point `x`. -/
def HasPartialDerivAt {n : ℕ} (f : (Fin n → ℝ) → ℝ) (j : Fin n) (d : ℝ)
    (x : Fin n → ℝ) : Prop :=
  HasDerivAt (fun t => f (Function.update x j t)) d (x j)

/-- The number `d` is the second partial derivative of `f` at `x`, first with
respect to the `j`-th variable and then with respect to the `i`-th. -/
def HasSecondPartialDerivAt {n : ℕ} (f : (Fin n → ℝ) → ℝ) (i j : Fin n) (d : ℝ)
    (x : Fin n → ℝ) : Prop :=
  ∃ g : (Fin n → ℝ) → ℝ,
    (∀ y, HasPartialDerivAt f j (g y) y) ∧ HasPartialDerivAt g i d x

/-! ## Auxiliary facts -/

/-- A derivative computed up to an equation between numbers. -/
theorem hasDerivAt_of_eq {f : ℝ → ℝ} {d e t : ℝ} (h : HasDerivAt f e t) (he : e = d) :
    HasDerivAt f d t := he ▸ h

/-- Partial derivatives are unique. -/
theorem hasPartialDerivAt_unique {n : ℕ} {f : (Fin n → ℝ) → ℝ} {j : Fin n} {d e : ℝ}
    {x : Fin n → ℝ} (hd : HasPartialDerivAt f j d x) (he : HasPartialDerivAt f j e x) :
    d = e :=
  HasDerivAt.unique hd he

/-- Second partial derivatives are unique. -/
theorem hasSecondPartialDerivAt_unique {n : ℕ} {f : (Fin n → ℝ) → ℝ} {i j : Fin n}
    {d e : ℝ} {x : Fin n → ℝ} (hd : HasSecondPartialDerivAt f i j d x)
    (he : HasSecondPartialDerivAt f i j e x) : d = e := by
  obtain ⟨g, hg, hgd⟩ := hd
  obtain ⟨k, hk, hke⟩ := he
  have hgk : g = k := funext fun y => hasPartialDerivAt_unique (hg y) (hk y)
  subst hgk
  exact hasPartialDerivAt_unique hgd hke

/-- Real part of an even number of terms of the exponential series at `x * I`. -/
theorem re_exp_series (x : ℝ) (k : ℕ) :
    (∑ m ∈ Finset.range (2 * k), ((x : ℂ) * Complex.I) ^ m / (m.factorial : ℂ)).re =
      ∑ j ∈ Finset.range k, (-1) ^ j * x ^ (2 * j) / ((2 * j).factorial : ℝ) := by
  induction k with
  | zero => simp
  | succ k ih =>
    have e : 2 * (k + 1) = 2 * k + 1 + 1 := by ring
    have p0 : ((x : ℂ) * Complex.I) ^ (2 * k) = (((-1) ^ k * x ^ (2 * k) : ℝ) : ℂ) := by
      rw [mul_pow, pow_mul Complex.I, Complex.I_sq]
      push_cast
      ring
    have p1 : ((x : ℂ) * Complex.I) ^ (2 * k + 1) =
        (((-1) ^ k * x ^ (2 * k + 1) : ℝ) : ℂ) * Complex.I := by
      rw [pow_succ, p0]
      push_cast
      ring
    rw [e, Finset.sum_range_succ, Finset.sum_range_succ, Complex.add_re, Complex.add_re, ih,
      Finset.sum_range_succ, Complex.div_natCast_re, Complex.div_natCast_re, p0, p1,
      Complex.ofReal_re, Complex.re_ofReal_mul, Complex.I_re]
    simp

/-- The cosine on `[-1, 1]` against its Taylor polynomial of degree 10. -/
theorem cos_taylor {x : ℝ} (hx : |x| ≤ 1) :
    |Real.cos x -
        (1 - x ^ 2 / 2 + x ^ 4 / 24 - x ^ 6 / 720 + x ^ 8 / 40320 - x ^ 10 / 3628800)| ≤
      |x| ^ 12 * (13 / 5748019200) := by
  have hb : Complex.abs ((x : ℂ) * Complex.I) ≤ 1 := by simpa using hx
  have h := Complex.exp_bound hb (show 0 < 12 by norm_num)
  have hre := Complex.abs_re_le_abs
    (Complex.exp ((x : ℂ) * Complex.I) -
      ∑ m ∈ Finset.range 12, ((x : ℂ) * Complex.I) ^ m / (m.factorial : ℂ))
  rw [Complex.sub_re, Complex.exp_ofReal_mul_I_re, show (12 : ℕ) = 2 * 6 from rfl,
    re_exp_series] at hre
  have hs : (∑ j ∈ Finset.range 6, (-1 : ℝ) ^ j * x ^ (2 * j) / ((2 * j).factorial : ℝ)) =
      1 - x ^ 2 / 2 + x ^ 4 / 24 - x ^ 6 / 720 + x ^ 8 / 40320 - x ^ 10 / 3628800 := by
    simp [Finset.sum_range_succ, Nat.factorial]
    ring
  rw [hs] at hre
  refine hre.trans (h.trans (le_of_eq ?_))
  simp [Nat.factorial]
  norm_num

/-- Ten digits of `cos 0.75`. -/
theorem cos_three_quarters :
    0.7316888687 ≤ Real.cos (3 / 4) ∧ Real.cos (3 / 4) ≤ 0.7316888689 := by
  have h := cos_taylor (show |(3 / 4 : ℝ)| ≤ 1 by rw [abs_le]; constructor <;> norm_num)
  rw [abs_le, abs_of_nonneg (show (0 : ℝ) ≤ 3 / 4 by norm_num)] at h
  constructor
  · have := h.1
    norm_num at this ⊢
    linarith
  · have := h.2
    norm_num at this ⊢
    linarith

/-- Ten digits of `cos 0.6`. -/
theorem cos_three_fifths :
    0.8253356149 ≤ Real.cos (3 / 5) ∧ Real.cos (3 / 5) ≤ 0.8253356150 := by
  have h := cos_taylor (show |(3 / 5 : ℝ)| ≤ 1 by rw [abs_le]; constructor <;> norm_num)
  rw [abs_le, abs_of_nonneg (show (0 : ℝ) ≤ 3 / 5 by norm_num)] at h
  constructor
  · have := h.1
    norm_num at this ⊢
    linarith
  · have := h.2
    norm_num at this ⊢
    linarith

/-- Nine digits of `cos 1.5 * cos 1.2`, by the duplication formula. -/
theorem cos_mul_cos_bounds :
    0.0256321733 ≤ Real.cos 1.5 * Real.cos 1.2 ∧
      Real.cos 1.5 * Real.cos 1.2 ≤ 0.0256321737 := by
  obtain ⟨a1, a2⟩ := cos_three_quarters
  obtain ⟨b1, b2⟩ := cos_three_fifths
  have e1 : Real.cos 1.5 = 2 * Real.cos (3 / 4) ^ 2 - 1 := by
    rw [← Real.cos_two_mul]
    norm_num
  have e2 : Real.cos 1.2 = 2 * Real.cos (3 / 5) ^ 2 - 1 := by
    rw [← Real.cos_two_mul]
    norm_num
  have sa1 : (0.7316888687 : ℝ) ^ 2 ≤ Real.cos (3 / 4) ^ 2 :=
    pow_le_pow_left₀ (by norm_num) a1 2
  have sa2 : Real.cos (3 / 4) ^ 2 ≤ (0.7316888689 : ℝ) ^ 2 :=
    pow_le_pow_left₀ (by linarith) a2 2
  have sb1 : (0.8253356149 : ℝ) ^ 2 ≤ Real.cos (3 / 5) ^ 2 :=
    pow_le_pow_left₀ (by norm_num) b1 2
  have sb2 : Real.cos (3 / 5) ^ 2 ≤ (0.8253356150 : ℝ) ^ 2 :=
    pow_le_pow_left₀ (by linarith) b2 2
  have l1 : (0.0707372011 : ℝ) ≤ Real.cos 1.5 := by
    rw [e1]
    norm_num at sa1 ⊢
    linarith
  have u1 : Real.cos 1.5 ≤ (0.0707372018 : ℝ) := by
    rw [e1]
    norm_num at sa2 ⊢
    linarith
  have l2 : (0.3623577544 : ℝ) ≤ Real.cos 1.2 := by
    rw [e2]
    norm_num at sb1 ⊢
    linarith
  have u2 : Real.cos 1.2 ≤ (0.3623577548 : ℝ) := by
    rw [e2]
    norm_num at sb2 ⊢
    linarith
  have p1 : (0.0707372011 : ℝ) * 0.3623577544 ≤ Real.cos 1.5 * Real.cos 1.2 :=
    mul_le_mul l1 l2 (by norm_num) (by linarith)
  have p2 : Real.cos 1.5 * Real.cos 1.2 ≤ (0.0707372018 : ℝ) * 0.3623577548 :=
    mul_le_mul u1 u2 (by linarith) (by norm_num)
  constructor
  · norm_num at p1 ⊢
    linarith
  · norm_num at p2 ⊢
    linarith

/-! ## HS071 objective -/

namespace hs071

/-- The value written by `F::impl_compute`. -/
theorem hs071_F_compute_zero (result : Fin 1 → K) (x : Fin 4 → K) :
    F.impl_compute result x 0 = x 0 * x 3 * (x 0 + x 1 + x 2) + x 3 := by
  simp [F.impl_compute]

/-- The partial derivatives of the value written by `F::impl_compute`. -/
theorem hs071_F_hasPartialDerivAt (result : Fin 1 → ℝ) (x : Fin 4 → ℝ) (j : Fin 4) :
    HasPartialDerivAt (fun y => F.impl_compute result y 0) j
      (![x 0 * x 3 + x 3 * (x 0 + x 1 + x 2), x 0 * x 3, x 0 * x 3,
         x 0 * (x 0 + x 1 + x 2) + 1] j) x := by
  unfold HasPartialDerivAt
  simp only [hs071_F_compute_zero]
  fin_cases j <;> simp [Function.update_apply] <;>
    exact hasDerivAt_of_eq (by apply_rules [hasDerivAt_const, hasDerivAt_id', HasDerivAt.pow,
      HasDerivAt.add, HasDerivAt.sub, HasDerivAt.neg, HasDerivAt.mul]) (by ring)

/-- The second partial derivatives of the value written by `F::impl_compute`. -/
theorem hs071_F_hasSecondPartialDerivAt (result : Fin 1 → ℝ) (x : Fin 4 → ℝ) (i j : Fin 4) :
    HasSecondPartialDerivAt (fun y => F.impl_compute result y 0) i j
      (![![2 * x 3, x 3, x 3, 2 * x 0 + x 1 + x 2], ![x 3, 0, 0, x 0], ![x 3, 0, 0, x 0],
         ![2 * x 0 + x 1 + x 2, x 0, x 0, 0]] i j) x := by
  refine ⟨fun y => ![y 0 * y 3 + y 3 * (y 0 + y 1 + y 2), y 0 * y 3, y 0 * y 3,
    y 0 * (y 0 + y 1 + y 2) + 1] j, fun y => hs071_F_hasPartialDerivAt result y j, ?_⟩
  unfold HasPartialDerivAt
  fin_cases i <;> fin_cases j <;> simp [Function.update_apply] <;>
    exact hasDerivAt_of_eq (by apply_rules [hasDerivAt_const, hasDerivAt_id', HasDerivAt.pow,
      HasDerivAt.add, HasDerivAt.sub, HasDerivAt.neg, HasDerivAt.mul]) (by ring)

/-- C1 (code defect).  At the HS071 starting point `(1, 5, 5, 1)` the entries of
index 2 and 3 written by `F::impl_gradient` are 2 and 11, while the partial
derivatives of the value written by `F::impl_compute` with respect to `x[2]` and
`x[3]` are 1 and 12: neither entry is the partial derivative. -/
theorem hs071_F_gradient_not_derivative (result : Fin 1 → ℝ) (grad : Fin 4 → ℝ) (s : Int) :
    F.impl_gradient grad (start : Fin 4 → ℝ) s 2 = 2 ∧
    HasPartialDerivAt (fun y => F.impl_compute result y 0) 2 1 start ∧
    ¬ HasPartialDerivAt (fun y => F.impl_compute result y 0) 2
        (F.impl_gradient grad (start : Fin 4 → ℝ) s 2) start ∧
    F.impl_gradient grad (start : Fin 4 → ℝ) s 3 = 11 ∧
    HasPartialDerivAt (fun y => F.impl_compute result y 0) 3 12 start ∧
    ¬ HasPartialDerivAt (fun y => F.impl_compute result y 0) 3
        (F.impl_gradient grad (start : Fin 4 → ℝ) s 3) start := by
  have g2 : F.impl_gradient grad (start : Fin 4 → ℝ) s 2 = 2 := by
    simp [F.impl_gradient, start, Function.update_apply]
    norm_num
  have g3 : F.impl_gradient grad (start : Fin 4 → ℝ) s 3 = 11 := by
    simp [F.impl_gradient, start, Function.update_apply]
    norm_num
  have d2 : HasPartialDerivAt (fun y => F.impl_compute result y 0) 2 1 start := by
    have h := hs071_F_hasPartialDerivAt result start 2
    simpa [start] using h
  have d3 : HasPartialDerivAt (fun y => F.impl_compute result y 0) 3 12 start := by
    have h := hs071_F_hasPartialDerivAt result start 3
    have e : (1 : ℝ) + 5 + 5 + 1 = 12 := by norm_num
    simpa [start, e] using h
  refine ⟨g2, d2, ?_, g3, d3, ?_⟩
  · intro h
    rw [g2] at h
    have := hasPartialDerivAt_unique h d2
    norm_num at this
  · intro h
    rw [g3] at h
    have := hasPartialDerivAt_unique h d3
    norm_num at this

/-- C2 (code defect).  At the HS071 starting point `(1, 5, 5, 1)` the entry
`h (2, 3)` written by `F::impl_hessian` is 5 (the value of `x[1]`) while the
entry `h (3, 2)` is 1; the mixed second partial derivative of the value written
by `F::impl_compute` with respect to `x[2]` and `x[3]` is 1 in both orders, so
`h (2, 3)` is not that derivative. -/
theorem hs071_F_hessian_not_second_derivative (result : Fin 1 → ℝ) (h : Fin 4 → Fin 4 → ℝ)
    (s : Int) :
    F.impl_hessian h (start : Fin 4 → ℝ) s 2 3 = 5 ∧
    F.impl_hessian h (start : Fin 4 → ℝ) s 3 2 = 1 ∧
    HasSecondPartialDerivAt (fun y => F.impl_compute result y 0) 2 3 1 start ∧
    HasSecondPartialDerivAt (fun y => F.impl_compute result y 0) 3 2 1 start ∧
    ¬ HasSecondPartialDerivAt (fun y => F.impl_compute result y 0) 2 3
        (F.impl_hessian h (start : Fin 4 → ℝ) s 2 3) start := by
  have h23 : F.impl_hessian h (start : Fin 4 → ℝ) s 2 3 = 5 := by
    simp [F.impl_hessian, setCoeff, start, Function.update_apply]
  have h32 : F.impl_hessian h (start : Fin 4 → ℝ) s 3 2 = 1 := by
    simp [F.impl_hessian, setCoeff, start, Function.update_apply]
  have d23 : HasSecondPartialDerivAt (fun y => F.impl_compute result y 0) 2 3 1 start := by
    have k := hs071_F_hasSecondPartialDerivAt result start 2 3
    simpa [start] using k
  have d32 : HasSecondPartialDerivAt (fun y => F.impl_compute result y 0) 3 2 1 start := by
    have k := hs071_F_hasSecondPartialDerivAt result start 3 2
    simpa [start] using k
  refine ⟨h23, h32, d23, d32, ?_⟩
  intro k
  rw [h23] at k
  have := hasSecondPartialDerivAt_unique k d23
  norm_num at this

end hs071

/-! ## Distance to a sphere -/

namespace distanceToSphere

/-- The value written by `F::impl_compute`, entry by entry. -/
theorem distanceToSphere_F_compute_apply (cos sin : K → K) (point_ result : Fin 3 → K)
    (theta phi : K) (i : Fin 3) :
    F.impl_compute cos sin (F.new cos sin point_) result ![theta, phi] i =
      ![cos theta * cos phi, sin theta * cos phi, sin phi] i -
        2 * ![cos (-1.5) * cos (-1.2), sin (-1.5) * cos (-1.2), sin (-1.2)] i := by
  fin_cases i <;>
    simp [F.impl_compute, F.new, F.sphericalCoordinates, ExpectedResult.x,
      Function.update_apply] <;>
    ring

/-- A point of the unit sphere has norm one. -/
theorem spherical_norm (theta phi : ℝ) :
    (Real.cos theta * Real.cos phi) * (Real.cos theta * Real.cos phi) +
      (Real.sin theta * Real.cos phi) * (Real.sin theta * Real.cos phi) +
      Real.sin phi * Real.sin phi = 1 := by
  have h1 := Real.sin_sq_add_cos_sq theta
  have h2 := Real.sin_sq_add_cos_sq phi
  linear_combination (Real.cos phi) ^ 2 * h1 + h2

/-- The sum of squares of the value of `F` in terms of the scalar product of the
point of the sphere with the centre direction. -/
theorem sumOfSquares_compute (point_ result : Fin 3 → ℝ) (theta phi : ℝ) :
    sumOfSquares
        (F.impl_compute Real.cos Real.sin (F.new Real.cos Real.sin point_) result ![theta, phi]) =
      5 - 4 * ((Real.cos theta * Real.cos phi) * (Real.cos (-1.5) * Real.cos (-1.2)) +
        (Real.sin theta * Real.cos phi) * (Real.sin (-1.5) * Real.cos (-1.2)) +
        Real.sin phi * Real.sin (-1.2)) := by
  have h1 := spherical_norm theta phi
  have h2 := spherical_norm (-1.5) (-1.2)
  simp only [sumOfSquares, distanceToSphere_F_compute_apply]
  simp only [Matrix.cons_val_zero, Matrix.cons_val_one, Matrix.head_cons, Matrix.cons_val_two,
    Matrix.tail_cons]
  linear_combination h1 + 4 * h2

/-- C3 (counterexample).  No fixed `target` makes the value written by
`F::impl_compute` equal to `2 * (cos θ cos φ, sin θ cos φ, sin φ) - target` at
both `(0, 0)` and `(π, 0)`. -/
theorem distanceToSphere_F_value_not_twice_sphere_point :
    ¬ ∃ target : Fin 3 → ℝ,
      (F.impl_compute Real.cos Real.sin (F.new Real.cos Real.sin 0) 0 ![0, 0] =
        fun i => 2 * ![Real.cos 0 * Real.cos 0, Real.sin 0 * Real.cos 0, Real.sin 0] i -
          target i) ∧
      (F.impl_compute Real.cos Real.sin (F.new Real.cos Real.sin 0) 0 ![Real.pi, 0] =
        fun i => 2 * ![Real.cos Real.pi * Real.cos 0, Real.sin Real.pi * Real.cos 0,
          Real.sin 0] i - target i) := by
  rintro ⟨target, h0, h1⟩
  have e0 := congrFun h0 0
  have e1 := congrFun h1 0
  rw [distanceToSphere_F_compute_apply] at e0 e1
  simp at e0 e1
  linarith

/-- C3 (amended).  For every `(θ, φ)`, whatever the containers held before, the
value written by `F::impl_compute` is `(cos θ cos φ, sin θ cos φ, sin φ) - target`
with the fixed point
`target = 2 * (cos (-1.5) cos (-1.2), sin (-1.5) cos (-1.2), sin (-1.2))`, which
is the member `point_` set by the constructor. -/
theorem distanceToSphere_F_unit_sphere_minus_target (point_ result : Fin 3 → ℝ)
    (theta phi : ℝ) :
    (F.new Real.cos Real.sin point_).point_ =
      (fun i => 2 * ![Real.cos (-1.5) * Real.cos (-1.2), Real.sin (-1.5) * Real.cos (-1.2),
        Real.sin (-1.2)] i) ∧
    F.impl_compute Real.cos Real.sin (F.new Real.cos Real.sin point_) result ![theta, phi] =
      fun i => ![Real.cos theta * Real.cos phi, Real.sin theta * Real.cos phi, Real.sin phi] i -
        2 * ![Real.cos (-1.5) * Real.cos (-1.2), Real.sin (-1.5) * Real.cos (-1.2),
          Real.sin (-1.2)] i := by
  constructor
  · funext i
    fin_cases i <;>
      simp [F.new, F.sphericalCoordinates, ExpectedResult.x, Function.update_apply] <;>
      ring
  · funext i
    exact distanceToSphere_F_compute_apply Real.cos Real.sin point_ result theta phi i

/-- C5.  The sum of squares of the value of `F` at the expected point
`(-1.5, -1.2)` is exactly the expected objective `1.0`, and at every `(θ, φ)` the
sum of squares is at least 1. -/
theorem distanceToSphere_expected_is_minimum (point_ result : Fin 3 → ℝ) :
    sumOfSquares (F.impl_compute Real.cos Real.sin (F.new Real.cos Real.sin point_) result
      ExpectedResult.x) = 1 ∧
    (ExpectedResult.fx : ℝ) = 1 ∧
    ∀ theta phi : ℝ, 1 ≤ sumOfSquares
      (F.impl_compute Real.cos Real.sin (F.new Real.cos Real.sin point_) result ![theta, phi]) := by
  refine ⟨?_, by norm_num [ExpectedResult.fx], ?_⟩
  · have h2 := spherical_norm (-1.5) (-1.2)
    rw [ExpectedResult.x, sumOfSquares_compute]
    linear_combination (-4 : ℝ) * h2
  · intro theta phi
    have h1 := spherical_norm theta phi
    have h2 := spherical_norm (-1.5) (-1.2)
    rw [sumOfSquares_compute]
    nlinarith [sq_nonneg (Real.cos theta * Real.cos phi - Real.cos (-1.5) * Real.cos (-1.2)),
      sq_nonneg (Real.sin theta * Real.cos phi - Real.sin (-1.5) * Real.cos (-1.2)),
      sq_nonneg (Real.sin phi - Real.sin (-1.2))]

/-- The sum of squares of the value of `F` at the starting point `(0, 0)`. -/
theorem sumOfSquares_start (point_ result : Fin 3 → ℝ) :
    sumOfSquares (F.impl_compute Real.cos Real.sin (F.new Real.cos Real.sin point_) result
      ExpectedResult.x0) = 5 - 4 * Real.cos 1.5 * Real.cos 1.2 := by
  rw [ExpectedResult.x0, sumOfSquares_compute]
  simp
  ring

/-- C9.  The sum of squares of the value of `F` at the starting point `(0, 0)`
is `5 - 4 cos 1.5 cos 1.2`, and it is within relative tolerance `1e-6` of the
literal `ExpectedResult::fx0`; the distance is even below `1e-8` times either of
the two numbers. -/
theorem distanceToSphere_start_value (point_ result : Fin 3 → ℝ) :
    sumOfSquares (F.impl_compute Real.cos Real.sin (F.new Real.cos Real.sin point_) result
      ExpectedResult.x0) = 5 - 4 * Real.cos 1.5 * Real.cos 1.2 ∧
    (ExpectedResult.fx0 : ℝ) = 4.8974713057829096 ∧
    |sumOfSquares (F.impl_compute Real.cos Real.sin (F.new Real.cos Real.sin point_) result
      ExpectedResult.x0) - ExpectedResult.fx0| ≤ 1e-6 * |(ExpectedResult.fx0 : ℝ)| ∧
    |sumOfSquares (F.impl_compute Real.cos Real.sin (F.new Real.cos Real.sin point_) result
      ExpectedResult.x0) - ExpectedResult.fx0| ≤ 1e-8 * |(ExpectedResult.fx0 : ℝ)| ∧
    |sumOfSquares (F.impl_compute Real.cos Real.sin (F.new Real.cos Real.sin point_) result
      ExpectedResult.x0) - ExpectedResult.fx0| ≤
      1e-8 * |sumOfSquares (F.impl_compute Real.cos Real.sin (F.new Real.cos Real.sin point_)
        result ExpectedResult.x0)| := by
  obtain ⟨c1, c2⟩ := cos_mul_cos_bounds
  rw [sumOfSquares_start, ExpectedResult.fx0]
  have hv : (0 : ℝ) ≤ 5 - 4 * Real.cos 1.5 * Real.cos 1.2 := by linarith
  rw [abs_of_nonneg hv, abs_of_nonneg (show (0 : ℝ) ≤ 4.8974713057829096 by norm_num)]
  refine ⟨rfl, rfl, ?_, ?_, ?_⟩ <;> rw [abs_le] <;> constructor <;> norm_num <;> linarith

end distanceToSphere

/-! ## Schittkowski problem 27 -/

namespace problem27

/-- The value written by `F<T>::impl_compute`. -/
theorem problem27_F_compute_zero (result : Fin 1 → K) (x : Fin 3 → K) :
    F.impl_compute result x 0 = 0.01 * (x 0 - 1) ^ 2 + (x 1 - x 0 * x 0) ^ 2 := by
  simp [F.impl_compute]

/-- The value written by `G<T>::impl_compute`. -/
theorem problem27_G_compute_zero (result : Fin 1 → K) (x : Fin 3 → K) :
    G.impl_compute result x 0 = x 0 + x 2 * x 2 + 1 := by
  simp [G.impl_compute]

/-- C4.  The expected solution `(-1, 1, 0)` satisfies the equality constraint,
the objective there is `0.04`, the literal `ExpectedResult::fx`, and every point
satisfying the equality constraint has an objective of at least `0.04`. -/
theorem problem27_expected_is_constrained_minimum (rf rg : Fin 1 → ℝ) :
    G.impl_compute rg ExpectedResult.x 0 = 0 ∧
    F.impl_compute rf ExpectedResult.x 0 = 0.04 ∧
    (ExpectedResult.fx : ℝ) = 0.04 ∧
    ∀ x : Fin 3 → ℝ, G.impl_compute rg x 0 = 0 → 0.04 ≤ F.impl_compute rf x 0 := by
  refine ⟨?_, ?_, rfl, ?_⟩
  · simp [problem27_G_compute_zero, ExpectedResult.x]
  · simp [problem27_F_compute_zero, ExpectedResult.x]
    norm_num
  · intro x hx
    rw [problem27_G_compute_zero] at hx
    rw [problem27_F_compute_zero]
    have h0 : x 0 - 1 ≤ -2 := by nlinarith [sq_nonneg (x 2)]
    have h1 : 4 ≤ (x 0 - 1) ^ 2 := by nlinarith
    have h2 : 0 ≤ (x 1 - x 0 * x 0) ^ 2 := sq_nonneg _
    norm_num
    linarith

/-- C4 (instance).  The point `(-2, 0, 1)` satisfies the equality constraint, so its objective is
at least `0.04`. -/
theorem problem27_expected_is_constrained_minimum_witness :
    G.impl_compute (0 : Fin 1 → ℝ) ![-2, 0, 1] 0 = 0 ∧
    (0.04 : ℝ) ≤ F.impl_compute (0 : Fin 1 → ℝ) ![-2, 0, 1] 0 :=
  ⟨by simp [problem27_G_compute_zero]; norm_num,
   (problem27_expected_is_constrained_minimum 0 0).2.2.2 ![-2, 0, 1]
     (by simp [problem27_G_compute_zero]; norm_num)⟩

/-- C6.  The objective at the starting point `(2, 2, 2)` is `4.01`, the literal
`ExpectedResult::f0`, hence within relative tolerance `1e-4` of it. -/
theorem problem27_start_value (result : Fin 1 → ℝ) :
    F.impl_compute result start 0 = 4.01 ∧
    F.impl_compute result start 0 = 0.01 * (2 - 1) ^ 2 + (2 - 2 ^ 2) ^ 2 ∧
    F.impl_compute result start 0 = ExpectedResult.f0 ∧
    |F.impl_compute result start 0 - ExpectedResult.f0| ≤ 1e-4 * |ExpectedResult.f0| := by
  have h : F.impl_compute result start 0 = 4.01 := by
    simp [problem27_F_compute_zero, start]
    norm_num
  refine ⟨h, ?_, h, ?_⟩
  · rw [h]
    norm_num
  · rw [h, ExpectedResult.f0]
    norm_num

end problem27

/-! ## Schittkowski problem 79 -/

namespace problem79

/-- The value written by `F<T>::impl_compute`. -/
theorem problem79_F_compute_zero (result : Fin 1 → K) (x : Fin 5 → K) :
    F.impl_compute result x 0 =
      (x 0 - 1) ^ 2 + (x 0 - x 1) ^ 2 + (x 1 - x 2) ^ 2 + (x 2 - x 3) ^ 4 + (x 3 - x 4) ^ 4 := by
  simp [F.impl_compute]

/-- C7.  The objective at the starting point `(2, 2, 2, 2, 2)` is exactly 1, the
expected starting value `f0`. -/
theorem problem79_start_value (result : Fin 1 → ℝ) :
    F.impl_compute result start 0 = 1 ∧
    F.impl_compute result start 0 = (expectedResult : ExpectedResult ℝ 5).f0 := by
  have h : F.impl_compute result (start : Fin 5 → ℝ) 0 = 1 := by
    simp [problem79_F_compute_zero, start]
    norm_num
  exact ⟨h, h⟩

/-- C8.  In exact arithmetic, over the rationals as over the reals, the objective
at the expected solution is within relative tolerance `1e-4` of the expected
objective `0.0787768209`. -/
theorem problem79_expected_value_close (rq : Fin 1 → ℚ) (rr : Fin 1 → ℝ) :
    |F.impl_compute rq (expectedResult : ExpectedResult ℚ 5).x 0 - 0.0787768209| ≤
      1e-4 * 0.0787768209 ∧
    (expectedResult : ExpectedResult ℚ 5).fx = 0.0787768209 ∧
    |F.impl_compute rr (expectedResult : ExpectedResult ℝ 5).x 0 - 0.0787768209| ≤
      1e-4 * 0.0787768209 ∧
    (expectedResult : ExpectedResult ℝ 5).fx = 0.0787768209 := by
  refine ⟨?_, rfl, ?_, rfl⟩
  · simp [problem79_F_compute_zero, expectedResult]
    norm_num [abs_le]
  · simp [problem79_F_compute_zero, expectedResult]
    norm_num [abs_le]

/-- The partial derivatives of the value written by `F<T>::impl_compute`. -/
theorem problem79_F_hasPartialDerivAt (result : Fin 1 → ℝ) (x : Fin 5 → ℝ) (j : Fin 5) :
    HasPartialDerivAt (fun y => F.impl_compute result y 0) j
      (![2 * (x 0 - 1) + 2 * (x 0 - x 1), -2 * (x 0 - x 1) + 2 * (x 1 - x 2),
         -2 * (x 1 - x 2) + 4 * (x 2 - x 3) ^ 3, -4 * (x 2 - x 3) ^ 3 + 4 * (x 3 - x 4) ^ 3,
         -4 * (x 3 - x 4) ^ 3] j) x := by
  unfold HasPartialDerivAt
  simp only [problem79_F_compute_zero]
  fin_cases j <;> simp [Function.update_apply] <;>
    exact hasDerivAt_of_eq (by apply_rules [hasDerivAt_const, hasDerivAt_id', HasDerivAt.pow,
      HasDerivAt.add, HasDerivAt.sub, HasDerivAt.neg, HasDerivAt.mul]) (by ring)

/-- The entries written by the dense `F<T>::impl_gradient`. -/
theorem problem79_F_gradient_apply (grad x : Fin 5 → K) (s : Int) (j : Fin 5) :
    F.impl_gradient grad x s j =
      ![2 * (x 0 - 1) + 2 * (x 0 - x 1), -2 * (x 0 - x 1) + 2 * (x 1 - x 2),
        -2 * (x 1 - x 2) + 4 * (x 2 - x 3) ^ 3, -4 * (x 2 - x 3) ^ 3 + 4 * (x 3 - x 4) ^ 3,
        -4 * (x 3 - x 4) ^ 3] j := by
  fin_cases j <;> simp [F.impl_gradient, Function.update_apply]

/-- The entries read from the sparse gradient that
`F<EigenMatrixSparse>::impl_gradient` builds in an empty container. -/
theorem problem79_F_gradient_sparse_coeff (x : Fin 5 → K) (s : Int) (j : Fin 5) :
    (F.impl_gradient_sparse (SparseVector.empty K 5) x s).coeff j =
      ![2 * (x 0 - 1) + 2 * (x 0 - x 1), -2 * (x 0 - x 1) + 2 * (x 1 - x 2),
        -2 * (x 1 - x 2) + 4 * (x 2 - x 3) ^ 3, -4 * (x 2 - x 3) ^ 3 + 4 * (x 3 - x 4) ^ 3,
        -4 * (x 3 - x 4) ^ 3] j := by
  fin_cases j <;>
    simp [F.impl_gradient_sparse, SparseVector.empty, SparseVector.coeffRef, SparseVector.coeff,
      coeffRefData, coeffData]

/-- C10.  For every `x` and every `j`, the `j`-th entry of the gradient of the
objective of problem 79, written by the dense `impl_gradient` into any container
and read from the sparse `impl_gradient` run on an empty container, is the
partial derivative with respect to `x[j]` of the value written by `impl_compute`,
which is `(x0-1)^2 + (x0-x1)^2 + (x1-x2)^2 + (x2-x3)^4 + (x3-x4)^4`. -/
theorem problem79_F_gradient_exact (result : Fin 1 → ℝ) (grad x : Fin 5 → ℝ) (s : Int)
    (j : Fin 5) :
    HasPartialDerivAt (fun y => F.impl_compute result y 0) j (F.impl_gradient grad x s j) x ∧
    HasPartialDerivAt (fun y => F.impl_compute result y 0) j
      ((F.impl_gradient_sparse (SparseVector.empty ℝ 5) x s).coeff j) x ∧
    F.impl_compute result x 0 =
      (x 0 - 1) ^ 2 + (x 0 - x 1) ^ 2 + (x 1 - x 2) ^ 2 + (x 2 - x 3) ^ 4 + (x 3 - x 4) ^ 4 := by
  refine ⟨?_, ?_, problem79_F_compute_zero result x⟩
  · rw [problem79_F_gradient_apply]
    exact problem79_F_hasPartialDerivAt result x j
  · rw [problem79_F_gradient_sparse_coeff]
    exact problem79_F_hasPartialDerivAt result x j

end problem79

/-! ## Schittkowski problem 79: constraint -/

namespace problem79

/-- The value written by `G<T>::impl_compute`, entry by entry. -/
theorem problem79_G_compute_apply (sqrt : K → K) (result : Fin 3 → K) (x : Fin 5 → K)
    (r : Fin 3) :
    G.impl_compute sqrt result x r =
      ![x 0 + x 1 ^ 2 + x 2 ^ 3 - 2 - 3 * sqrt 2, x 1 - x 2 ^ 2 + x 3 + 2 - 2 * sqrt 2,
        x 0 * x 4 - 2] r := by
  fin_cases r <;> simp [G.impl_compute, Function.update_apply]

/-- The partial derivatives of the rows of the value written by
`G<T>::impl_compute`. -/
theorem problem79_G_hasPartialDerivAt (sqrt : ℝ → ℝ) (result : Fin 3 → ℝ) (x : Fin 5 → ℝ)
    (r : Fin 3) (j : Fin 5) :
    HasPartialDerivAt (fun y => G.impl_compute sqrt result y r) j
      (![![1, 2 * x 1, 3 * x 2 ^ 2, 0, 0], ![0, 1, -2 * x 2, 1, 0], ![x 4, 0, 0, 0, x 0]]
        r j) x := by
  unfold HasPartialDerivAt
  simp only [problem79_G_compute_apply]
  fin_cases r <;> fin_cases j <;> simp [Function.update_apply] <;>
    exact hasDerivAt_of_eq (by apply_rules [hasDerivAt_const, hasDerivAt_id', HasDerivAt.pow,
      HasDerivAt.add, HasDerivAt.sub, HasDerivAt.neg, HasDerivAt.mul]) (by ring)

/-- The entries written by the dense `G<T>::impl_gradient` for a valid row. -/
theorem problem79_G_gradient_apply (grad x : Fin 5 → K) (r : Fin 3) (j : Fin 5) :
    G.impl_gradient grad x ((r : ℕ) : Int) j =
      (![![1, 2 * x 1, 3 * x 2 ^ 2, 0, 0], ![0, 1, -2 * x 2, 1, 0], ![x 4, 0, 0, 0, x 0]] :
        Fin 3 → Fin 5 → K) r j := by
  fin_cases r <;> fin_cases j <;> simp [G.impl_gradient, setZero, Function.update_apply]

/-- The entries read from the sparse gradient that
`G<EigenMatrixSparse>::impl_gradient` builds in an empty container for a valid
row. -/
theorem problem79_G_gradient_sparse_coeff (x : Fin 5 → K) (r : Fin 3) (j : Fin 5) :
    (G.impl_gradient_sparse (SparseVector.empty K 5) x ((r : ℕ) : Int)).coeff j =
      (![![1, 2 * x 1, 3 * x 2 ^ 2, 0, 0], ![0, 1, -2 * x 2, 1, 0], ![x 4, 0, 0, 0, x 0]] :
        Fin 3 → Fin 5 → K) r j := by
  fin_cases r <;> fin_cases j <;>
    simp [G.impl_gradient_sparse, SparseVector.empty, SparseVector.coeffRef, SparseVector.coeff,
      coeffRefData, coeffData]

/-- C11.  For every `x`, every row `r` in `{0, 1, 2}` and every `j`, the `j`-th
entry of the gradient of row `r` of the constraint of problem 79, written by the
dense `impl_gradient` into any container and read from the sparse
`impl_gradient` run on an empty container, is the partial derivative with respect
to `x[j]` of the `r`-th component of the value written by `impl_compute`. -/
theorem problem79_G_gradient_exact (sqrt : ℝ → ℝ) (result : Fin 3 → ℝ) (grad x : Fin 5 → ℝ)
    (r : Fin 3) (j : Fin 5) :
    HasPartialDerivAt (fun y => G.impl_compute sqrt result y r) j
      (G.impl_gradient grad x ((r : ℕ) : Int) j) x ∧
    HasPartialDerivAt (fun y => G.impl_compute sqrt result y r) j
      ((G.impl_gradient_sparse (SparseVector.empty ℝ 5) x ((r : ℕ) : Int)).coeff j) x := by
  constructor
  · rw [problem79_G_gradient_apply]
    exact problem79_G_hasPartialDerivAt sqrt result x r j
  · rw [problem79_G_gradient_sparse_coeff]
    exact problem79_G_hasPartialDerivAt sqrt result x r j

end problem79

/-! ## Schittkowski problem 27: gradients -/

namespace problem27

/-- The partial derivatives of the value written by `F<T>::impl_compute`. -/
theorem problem27_F_hasPartialDerivAt (result : Fin 1 → ℝ) (x : Fin 3 → ℝ) (j : Fin 3) :
    HasPartialDerivAt (fun y => F.impl_compute result y 0) j
      (![4 * x 0 ^ 3 - 4 * x 0 * x 1 + 0.02 * x 0 - 0.02, -2 * x 0 * x 0 + 2 * x 1, 0] j) x := by
  unfold HasPartialDerivAt
  simp only [problem27_F_compute_zero]
  fin_cases j <;> simp [Function.update_apply] <;>
    exact hasDerivAt_of_eq (by apply_rules [hasDerivAt_const, hasDerivAt_id', HasDerivAt.pow,
      HasDerivAt.add, HasDerivAt.sub, HasDerivAt.neg, HasDerivAt.mul]) (by ring)

/-- The partial derivatives of the value written by `G<T>::impl_compute`. -/
theorem problem27_G_hasPartialDerivAt (result : Fin 1 → ℝ) (x : Fin 3 → ℝ) (j : Fin 3) :
    HasPartialDerivAt (fun y => G.impl_compute result y 0) j (![1, 0, 2 * x 2] j) x := by
  unfold HasPartialDerivAt
  simp only [problem27_G_compute_zero]
  fin_cases j <;> simp [Function.update_apply] <;>
    exact hasDerivAt_of_eq (by apply_rules [hasDerivAt_const, hasDerivAt_id', HasDerivAt.pow,
      HasDerivAt.add, HasDerivAt.sub, HasDerivAt.neg, HasDerivAt.mul]) (by ring)

/-- The entries written by the dense `F<T>::impl_gradient`. -/
theorem problem27_F_gradient_apply (grad x : Fin 3 → K) (s : Int) (j : Fin 3) :
    F.impl_gradient grad x s j =
      ![4 * x 0 ^ 3 - 4 * x 0 * x 1 + 0.02 * x 0 - 0.02, -2 * x 0 * x 0 + 2 * x 1, 0] j := by
  fin_cases j <;> simp [F.impl_gradient, Function.update_apply]

/-- The entries written by the dense `G<T>::impl_gradient`. -/
theorem problem27_G_gradient_apply (grad x : Fin 3 → K) (s : Int) (j : Fin 3) :
    G.impl_gradient grad x s j = ![1, 0, 2 * x 2] j := by
  fin_cases j <;> simp [G.impl_gradient, Function.update_apply]

/-- The container that `F<EigenMatrixSparse>::impl_gradient` builds from an
empty one. -/
theorem problem27_F_gradient_sparse_data (x : Fin 3 → K) (s : Int) :
    (F.impl_gradient_sparse (SparseVector.empty K 3) x s).data =
      [(0, 4 * x 0 ^ 3 - 4 * x 0 * x 1 + 0.02 * x 0 - 0.02), (1, -2 * x 0 * x 0 + 2 * x 1),
        (2, 0)] := by
  simp [F.impl_gradient_sparse, SparseVector.empty, SparseVector.insert, insertData]

/-- The container that `G<EigenMatrixSparse>::impl_gradient` builds from an
empty one. -/
theorem problem27_G_gradient_sparse_data (x : Fin 3 → K) (s : Int) :
    (G.impl_gradient_sparse (SparseVector.empty K 3) x s).data =
      [(0, 1), (1, 0), (2, 2 * x 2)] := by
  simp [G.impl_gradient_sparse, SparseVector.empty, SparseVector.insert, insertData]

/-- The entries read from the sparse gradient of `F`. -/
theorem problem27_F_gradient_sparse_coeff (x : Fin 3 → K) (s : Int) (j : Fin 3) :
    (F.impl_gradient_sparse (SparseVector.empty K 3) x s).coeff j =
      ![4 * x 0 ^ 3 - 4 * x 0 * x 1 + 0.02 * x 0 - 0.02, -2 * x 0 * x 0 + 2 * x 1, 0] j := by
  rw [SparseVector.coeff, problem27_F_gradient_sparse_data]
  fin_cases j <;> simp [coeffData]

/-- The entries read from the sparse gradient of `G`. -/
theorem problem27_G_gradient_sparse_coeff (x : Fin 3 → K) (s : Int) (j : Fin 3) :
    (G.impl_gradient_sparse (SparseVector.empty K 3) x s).coeff j = ![1, 0, 2 * x 2] j := by
  rw [SparseVector.coeff, problem27_G_gradient_sparse_data]
  fin_cases j <;> simp [coeffData]

/-- C12.  For every `x` and every `j`, the `j`-th gradient entry of the objective
`F` and of the constraint `G` of problem 27, written by the dense `impl_gradient`
into any container and read from the sparse `impl_gradient` run on an empty
container, is the partial derivative with respect to `x[j]` of the value written
by the corresponding `impl_compute`, which is `0.01 (x0 - 1)^2 + (x1 - x0^2)^2`
for `F` and `x0 + x2^2 + 1` for `G`. -/
theorem problem27_gradients_exact (rf rg : Fin 1 → ℝ) (grad x : Fin 3 → ℝ) (s : Int)
    (j : Fin 3) :
    HasPartialDerivAt (fun y => F.impl_compute rf y 0) j (F.impl_gradient grad x s j) x ∧
    HasPartialDerivAt (fun y => F.impl_compute rf y 0) j
      ((F.impl_gradient_sparse (SparseVector.empty ℝ 3) x s).coeff j) x ∧
    HasPartialDerivAt (fun y => G.impl_compute rg y 0) j (G.impl_gradient grad x s j) x ∧
    HasPartialDerivAt (fun y => G.impl_compute rg y 0) j
      ((G.impl_gradient_sparse (SparseVector.empty ℝ 3) x s).coeff j) x ∧
    F.impl_compute rf x 0 = 0.01 * (x 0 - 1) ^ 2 + (x 1 - x 0 ^ 2) ^ 2 ∧
    G.impl_compute rg x 0 = x 0 + x 2 ^ 2 + 1 := by
  refine ⟨?_, ?_, ?_, ?_, ?_, ?_⟩
  · rw [problem27_F_gradient_apply]
    exact problem27_F_hasPartialDerivAt rf x j
  · rw [problem27_F_gradient_sparse_coeff]
    exact problem27_F_hasPartialDerivAt rf x j
  · rw [problem27_G_gradient_apply]
    exact problem27_G_hasPartialDerivAt rg x j
  · rw [problem27_G_gradient_sparse_coeff]
    exact problem27_G_hasPartialDerivAt rg x j
  · rw [problem27_F_compute_zero]
    ring
  · rw [problem27_G_compute_zero]
    ring

end problem27

/-! ## HS071 constraint -/

namespace hs071

/-- The value written by `NonScalarG::impl_compute`, entry by entry. -/
theorem hs071_G_compute_apply (res : Fin 2 → K) (x : Fin 4 → K) (s : Fin 2) :
    NonScalarG.impl_compute res x s =
      ![x 0 * x 1 * x 2 * x 3, x 0 * x 0 + x 1 * x 1 + x 2 * x 2 + x 3 * x 3] s := by
  fin_cases s <;> simp [NonScalarG.impl_compute, Function.update_apply]

/-- The partial derivatives of the rows of the value written by
`NonScalarG::impl_compute`. -/
theorem hs071_G_hasPartialDerivAt (res : Fin 2 → ℝ) (x : Fin 4 → ℝ) (s : Fin 2) (j : Fin 4) :
    HasPartialDerivAt (fun y => NonScalarG.impl_compute res y s) j
      (![![x 1 * x 2 * x 3, x 0 * x 2 * x 3, x 0 * x 1 * x 3, x 0 * x 1 * x 2],
         ![2 * x 0, 2 * x 1, 2 * x 2, 2 * x 3]] s j) x := by
  unfold HasPartialDerivAt
  simp only [hs071_G_compute_apply]
  fin_cases s <;> fin_cases j <;> simp [Function.update_apply] <;>
    exact hasDerivAt_of_eq (by apply_rules [hasDerivAt_const, hasDerivAt_id', HasDerivAt.pow,
      HasDerivAt.add, HasDerivAt.sub, HasDerivAt.neg, HasDerivAt.mul]) (by ring)

/-- The entries written by `NonScalarG::impl_gradient` for a valid row. -/
theorem hs071_G_gradient_apply (grad x : Fin 4 → K) (s : Fin 2) (j : Fin 4) :
    NonScalarG.impl_gradient grad x ((s : ℕ) : Int) j =
      (![![x 1 * x 2 * x 3, x 0 * x 2 * x 3, x 0 * x 1 * x 3, x 0 * x 1 * x 2],
         ![2 * x 0, 2 * x 1, 2 * x 2, 2 * x 3]] : Fin 2 → Fin 4 → K) s j := by
  fin_cases s <;> fin_cases j <;>
    simp [NonScalarG.impl_gradient, setZero, Function.update_apply]

/-- C14.  For every `x`, every row `s` in `{0, 1}` and every `j`, the `j`-th entry
written by `NonScalarG::impl_gradient` for row `s` is the partial derivative with
respect to `x[j]` of the `s`-th component of the value written by
`NonScalarG::impl_compute`, which is `x0 x1 x2 x3` for row 0 and
`x0^2 + x1^2 + x2^2 + x3^2` for row 1. -/
theorem hs071_G_gradient_exact (res : Fin 2 → ℝ) (grad x : Fin 4 → ℝ) (s : Fin 2)
    (j : Fin 4) :
    HasPartialDerivAt (fun y => NonScalarG.impl_compute res y s) j
      (NonScalarG.impl_gradient grad x ((s : ℕ) : Int) j) x ∧
    NonScalarG.impl_compute res x 0 = x 0 * x 1 * x 2 * x 3 ∧
    NonScalarG.impl_compute res x 1 = x 0 ^ 2 + x 1 ^ 2 + x 2 ^ 2 + x 3 ^ 2 := by
  refine ⟨?_, ?_, ?_⟩
  · rw [hs071_G_gradient_apply]
    exact hs071_G_hasPartialDerivAt res x s j
  · rw [hs071_G_compute_apply]
    simp
  · rw [hs071_G_compute_apply]
    simp
    ring

/-- The entries written by `NonScalarG::impl_hessian` for a valid row. -/
theorem hs071_G_hessian_apply (h : Fin 4 → Fin 4 → K) (x : Fin 4 → K) (s : Fin 2)
    (i j : Fin 4) :
    NonScalarG.impl_hessian h x ((s : ℕ) : Int) i j =
      (![![![0, x 2 * x 3, x 1 * x 3, x 1 * x 2], ![x 2 * x 3, 0, x 0 * x 3, x 0 * x 2],
            ![x 1 * x 3, x 0 * x 3, 0, x 0 * x 1], ![x 1 * x 2, x 0 * x 2, x 0 * x 1, 0]],
         ![![2, 0, 0, 0], ![0, 2, 0, 0], ![0, 0, 2, 0], ![0, 0, 0, 2]]] :
        Fin 2 → Fin 4 → Fin 4 → K) s i j := by
  fin_cases s <;> fin_cases i <;> fin_cases j <;>
    simp [NonScalarG.impl_hessian, setZeroMatrix, setCoeff, Function.update_apply]

/-- The second partial derivatives of the rows of the value written by
`NonScalarG::impl_compute`. -/
theorem hs071_G_hasSecondPartialDerivAt (res : Fin 2 → ℝ) (x : Fin 4 → ℝ) (s : Fin 2)
    (i j : Fin 4) :
    HasSecondPartialDerivAt (fun y => NonScalarG.impl_compute res y s) i j
      (![![![0, x 2 * x 3, x 1 * x 3, x 1 * x 2], ![x 2 * x 3, 0, x 0 * x 3, x 0 * x 2],
            ![x 1 * x 3, x 0 * x 3, 0, x 0 * x 1], ![x 1 * x 2, x 0 * x 2, x 0 * x 1, 0]],
         ![![2, 0, 0, 0], ![0, 2, 0, 0], ![0, 0, 2, 0], ![0, 0, 0, 2]]] s i j) x := by
  refine ⟨fun y => ![![y 1 * y 2 * y 3, y 0 * y 2 * y 3, y 0 * y 1 * y 3, y 0 * y 1 * y 2],
    ![2 * y 0, 2 * y 1, 2 * y 2, 2 * y 3]] s j, fun y => hs071_G_hasPartialDerivAt res y s j, ?_⟩
  unfold HasPartialDerivAt
  fin_cases s <;> fin_cases i <;> fin_cases j <;> simp [Function.update_apply] <;>
    exact hasDerivAt_of_eq (by apply_rules [hasDerivAt_const, hasDerivAt_id', HasDerivAt.pow,
      HasDerivAt.add, HasDerivAt.sub, HasDerivAt.neg, HasDerivAt.mul]) (by ring)

/-- C15.  For every `x`, every row `s` in `{0, 1}` and every pair `(i, j)`, the
entry `h (i, j)` written by `NonScalarG::impl_hessian` for row `s` is the second
partial derivative, with respect to `x[j]` and then `x[i]`, of the `s`-th
component of the value written by `NonScalarG::impl_compute`; the matrix is
symmetric. -/
theorem hs071_G_hessian_exact (res : Fin 2 → ℝ) (h : Fin 4 → Fin 4 → ℝ) (x : Fin 4 → ℝ)
    (s : Fin 2) (i j : Fin 4) :
    HasSecondPartialDerivAt (fun y => NonScalarG.impl_compute res y s) i j
      (NonScalarG.impl_hessian h x ((s : ℕ) : Int) i j) x ∧
    NonScalarG.impl_hessian h x ((s : ℕ) : Int) i j =
      NonScalarG.impl_hessian h x ((s : ℕ) : Int) j i := by
  constructor
  · rw [hs071_G_hessian_apply]
    exact hs071_G_hasSecondPartialDerivAt res x s i j
  · rw [hs071_G_hessian_apply, hs071_G_hessian_apply]
    fin_cases s <;> fin_cases i <;> fin_cases j <;> simp

end hs071

/-! ## Distance to a sphere: gradient -/

namespace distanceToSphere

/-- The value written by `F::impl_compute` for any object and any argument. -/
theorem distanceToSphere_F_compute_at (cos sin : K → K) (self : F K) (result : Fin 3 → K)
    (x : Fin 2 → K) (i : Fin 3) :
    F.impl_compute cos sin self result x i =
      ![cos (x 0) * cos (x 1), sin (x 0) * cos (x 1), sin (x 1)] i - self.point_ i := by
  fin_cases i <;> simp [F.impl_compute, F.sphericalCoordinates, Function.update_apply]

/-- The container returned by `F::impl_gradient` for a valid row: both entries
are overwritten. -/
theorem distanceToSphere_F_gradient_valid (cos sin : K → K) (self : F K) (gradient : Fin 2 → K)
    (x : Fin 2 → K) (r : Fin 3) :
    F.impl_gradient cos sin self gradient x ((r : ℕ) : Int) =
      some ((![![-sin (x 0) * cos (x 1), -cos (x 0) * sin (x 1)],
        ![cos (x 0) * cos (x 1), -sin (x 0) * sin (x 1)], ![0, cos (x 1)]] :
        Fin 3 → Fin 2 → K) r) := by
  fin_cases r <;> simp [F.impl_gradient] <;> funext j <;> fin_cases j <;>
    simp [Function.update_apply]

/-- The partial derivatives of the rows of the value written by
`F::impl_compute`. -/
theorem distanceToSphere_F_hasPartialDerivAt (self : F ℝ) (result : Fin 3 → ℝ)
    (x : Fin 2 → ℝ) (r : Fin 3) (j : Fin 2) :
    HasPartialDerivAt (fun y => F.impl_compute Real.cos Real.sin self result y r) j
      (![![-Real.sin (x 0) * Real.cos (x 1), -Real.cos (x 0) * Real.sin (x 1)],
        ![Real.cos (x 0) * Real.cos (x 1), -Real.sin (x 0) * Real.sin (x 1)],
        ![0, Real.cos (x 1)]] r j) x := by
  unfold HasPartialDerivAt
  simp only [distanceToSphere_F_compute_at]
  fin_cases r <;> fin_cases j <;> simp [Function.update_apply]
  · exact hasDerivAt_of_eq
      (((Real.hasDerivAt_cos (x 0)).mul_const (Real.cos (x 1))).sub_const _) (by ring)
  · exact hasDerivAt_of_eq
      (((Real.hasDerivAt_cos (x 1)).const_mul (Real.cos (x 0))).sub_const _) (by ring)
  · exact ((Real.hasDerivAt_sin (x 0)).mul_const (Real.cos (x 1))).sub_const _
  · exact hasDerivAt_of_eq
      (((Real.hasDerivAt_cos (x 1)).const_mul (Real.sin (x 0))).sub_const _) (by ring)
  · exact hasDerivAt_const _ _
  · exact (Real.hasDerivAt_sin (x 1)).sub_const _

/-- C13.  For every `(θ, φ)` and every row `r` in `{0, 1, 2}`, `F::impl_gradient`
returns, and the two entries it writes are the partial derivatives, with respect
to `θ` and to `φ`, of the `r`-th component of the value written by
`F::impl_compute`. -/
theorem distanceToSphere_F_gradient_exact (self : F ℝ) (result : Fin 3 → ℝ)
    (gradient x : Fin 2 → ℝ) (r : Fin 3) :
    ∃ g : Fin 2 → ℝ,
      F.impl_gradient Real.cos Real.sin self gradient x ((r : ℕ) : Int) = some g ∧
      HasPartialDerivAt (fun y => F.impl_compute Real.cos Real.sin self result y r) 0 (g 0) x ∧
      HasPartialDerivAt (fun y => F.impl_compute Real.cos Real.sin self result y r) 1 (g 1) x :=
  ⟨_, distanceToSphere_F_gradient_valid Real.cos Real.sin self gradient x r,
    distanceToSphere_F_hasPartialDerivAt self result x r 0,
    distanceToSphere_F_hasPartialDerivAt self result x r 1⟩

/-- C17.  For every `(θ, φ)` and every integer `functionId`, `F::impl_gradient`
aborts exactly when `functionId` is none of 0, 1, 2; for each of these three rows
it returns a container whose two entries are both assigned, whatever the
container held before. -/
theorem distanceToSphere_F_gradient_abort_iff (cos sin : K → K) (self : F K)
    (gradient x : Fin 2 → K) (functionId : Int) :
    (F.impl_gradient cos sin self gradient x functionId = none ↔
      ¬ (functionId = 0 ∨ functionId = 1 ∨ functionId = 2)) ∧
    F.impl_gradient cos sin self gradient x 0 =
      some ![-sin (x 0) * cos (x 1), -cos (x 0) * sin (x 1)] ∧
    F.impl_gradient cos sin self gradient x 1 =
      some ![cos (x 0) * cos (x 1), -sin (x 0) * sin (x 1)] ∧
    F.impl_gradient cos sin self gradient x 2 = some ![0, cos (x 1)] := by
  refine ⟨?_, distanceToSphere_F_gradient_valid cos sin self gradient x 0,
    distanceToSphere_F_gradient_valid cos sin self gradient x 1,
    distanceToSphere_F_gradient_valid cos sin self gradient x 2⟩
  unfold F.impl_gradient
  by_cases h0 : functionId = 0
  · simp [h0]
  · by_cases h1 : functionId = 1
    · simp [h1]
    · by_cases h2 : functionId = 2
      · simp [h2]
      · simp [h0, h1, h2]

end distanceToSphere

/-! ## Row indices out of range -/

/-- C16 (counterexample).  With a row index out of range nothing is fatal: at the
starting point of problem 79 and row 3, the dense `G<T>::impl_gradient` returns
the zero row and the sparse one returns its container untouched; at the HS071
starting point and row 2, `NonScalarG::impl_gradient` returns `(2, 10, 10, 2)`
and `NonScalarG::impl_hessian` returns what it returns for row 1, the derivatives
of the valid row 1. -/
theorem invalid_row_returns_normally :
    problem79.G.impl_gradient (fun _ => 7) (problem79.start : Fin 5 → ℝ) 3 = (fun _ => 0) ∧
    problem79.G.impl_gradient_sparse ⟨5, [(3, 7)]⟩ (problem79.start : Fin 5 → ℝ) 3 =
      ⟨5, [(3, 7)]⟩ ∧
    hs071.NonScalarG.impl_gradient (fun _ => 7) (hs071.start : Fin 4 → ℝ) 2 = ![2, 10, 10, 2] ∧
    hs071.NonScalarG.impl_gradient (fun _ => 7) (hs071.start : Fin 4 → ℝ) 2 =
      hs071.NonScalarG.impl_gradient (fun _ => 7) (hs071.start : Fin 4 → ℝ) 1 ∧
    hs071.NonScalarG.impl_hessian (fun _ _ => 7) (hs071.start : Fin 4 → ℝ) 2 =
      hs071.NonScalarG.impl_hessian (fun _ _ => 7) (hs071.start : Fin 4 → ℝ) 1 := by
  refine ⟨?_, ?_, ?_, ?_, ?_⟩
  · simp [problem79.G.impl_gradient]
    rfl
  · simp [problem79.G.impl_gradient_sparse]
  · funext j
    fin_cases j <;>
      simp [hs071.NonScalarG.impl_gradient, hs071.start, setZero, Function.update_apply] <;>
      norm_num
  · simp [hs071.NonScalarG.impl_gradient]
  · simp [hs071.NonScalarG.impl_hessian]

/-- C16 (amended).  The derivative methods of `G` of problem 79 and of
`NonScalarG` check no row index and always return: for a row index outside
`[0, 3)` the dense `G<T>::impl_gradient` returns the zero row and the sparse one
returns its container unchanged; for a row index outside `[0, 2)`
`NonScalarG::impl_gradient` and `NonScalarG::impl_hessian` return what they
return for row 1. -/
theorem invalid_row_not_checked (grad5 x5 : Fin 5 → K) (sparse : SparseVector K)
    (grad4 x4 : Fin 4 → K) (h : Fin 4 → Fin 4 → K) (functionId s : Int)
    (hf : functionId < 0 ∨ 3 ≤ functionId) (hs : s < 0 ∨ 2 ≤ s) :
    problem79.G.impl_gradient grad5 x5 functionId = (fun _ => 0) ∧
    problem79.G.impl_gradient_sparse sparse x5 functionId = sparse ∧
    hs071.NonScalarG.impl_gradient grad4 x4 s = hs071.NonScalarG.impl_gradient grad4 x4 1 ∧
    hs071.NonScalarG.impl_hessian h x4 s = hs071.NonScalarG.impl_hessian h x4 1 := by
  have f0 : functionId ≠ 0 := by omega
  have f1 : functionId ≠ 1 := by omega
  have f2 : functionId ≠ 2 := by omega
  have s0 : s ≠ 0 := by omega
  refine ⟨?_, ?_, ?_, ?_⟩
  · simp [problem79.G.impl_gradient, f0, f1, f2]
    rfl
  · simp [problem79.G.impl_gradient_sparse, f0, f1, f2]
  · simp [hs071.NonScalarG.impl_gradient, s0]
  · simp [hs071.NonScalarG.impl_hessian, s0]

/-- C16 (instance).  Row 3 of problem 79 and row 2 of HS071, at the starting
points. -/
theorem invalid_row_not_checked_witness :
    problem79.G.impl_gradient (fun _ => 7) (problem79.start : Fin 5 → ℚ) 3 = (fun _ => 0) ∧
    problem79.G.impl_gradient_sparse ⟨5, [(3, 7)]⟩ (problem79.start : Fin 5 → ℚ) 3 =
      ⟨5, [(3, 7)]⟩ ∧
    hs071.NonScalarG.impl_gradient (fun _ => 7) (hs071.start : Fin 4 → ℚ) 2 =
      hs071.NonScalarG.impl_gradient (fun _ => 7) (hs071.start : Fin 4 → ℚ) 1 ∧
    hs071.NonScalarG.impl_hessian (fun _ _ => 7) (hs071.start : Fin 4 → ℚ) 2 =
      hs071.NonScalarG.impl_hessian (fun _ _ => 7) (hs071.start : Fin 4 → ℚ) 1 :=
  invalid_row_not_checked (fun _ => 7) problem79.start ⟨5, [(3, 7)]⟩ (fun _ => 7) hs071.start
    (fun _ _ => 7) 3 2 (by decide) (by decide)

/-! ## Sparse containers -/

namespace problem27

/-- C18 (counterexample).  Run on an empty container at the starting point, the
sparse gradient of `F` stores index 2 and the sparse gradient of `G` stores
index 1, although the partial derivative of `F` with respect to `x[2]` and that
of `G` with respect to `x[1]` are zero at every point. -/
theorem problem27_sparse_gradient_stores_zero :
    2 ∈ (F.impl_gradient_sparse (SparseVector.empty ℝ 3) start 0).indices ∧
    (∀ x : Fin 3 → ℝ, HasPartialDerivAt (fun y => F.impl_compute 0 y 0) 2 0 x) ∧
    1 ∈ (G.impl_gradient_sparse (SparseVector.empty ℝ 3) start 0).indices ∧
    (∀ x : Fin 3 → ℝ, HasPartialDerivAt (fun y => G.impl_compute 0 y 0) 1 0 x) := by
  refine ⟨?_, fun x => ?_, ?_, fun x => ?_⟩
  · simp [SparseVector.indices, problem27_F_gradient_sparse_data]
  · simpa using problem27_F_hasPartialDerivAt 0 x 2
  · simp [SparseVector.indices, problem27_G_gradient_sparse_data]
  · simpa using problem27_G_hasPartialDerivAt 0 x 1

/-- C18 (amended).  For every `x`, run on an empty container the sparse
specializations of `F::impl_gradient` and `G::impl_gradient` store exactly the
three indices 0, 1, 2, in this order; the entry of `F` at index 2 and the entry
of `G` at index 1 are stored zeros, and the other stored values are the gradient
formulas. -/
theorem problem27_sparse_gradient_stores_all (x : Fin 3 → ℝ) (s : Int) :
    (F.impl_gradient_sparse (SparseVector.empty ℝ 3) x s).indices = [0, 1, 2] ∧
    (F.impl_gradient_sparse (SparseVector.empty ℝ 3) x s).data =
      [(0, 4 * x 0 ^ 3 - 4 * x 0 * x 1 + 0.02 * x 0 - 0.02), (1, -2 * x 0 * x 0 + 2 * x 1),
        (2, 0)] ∧
    (G.impl_gradient_sparse (SparseVector.empty ℝ 3) x s).indices = [0, 1, 2] ∧
    (G.impl_gradient_sparse (SparseVector.empty ℝ 3) x s).data =
      [(0, 1), (1, 0), (2, 2 * x 2)] := by
  refine ⟨?_, problem27_F_gradient_sparse_data x s, ?_, problem27_G_gradient_sparse_data x s⟩
  · simp [SparseVector.indices, problem27_F_gradient_sparse_data]
  · simp [SparseVector.indices, problem27_G_gradient_sparse_data]

end problem27

namespace problem79

/-- C19 (counterexample).  At the starting point, the sparse `impl_gradient` of
`G` called for row 0 on the container that its own call for row 1 filled leaves
the entry of index 3, which row 0 does not assign, at 1 and not at zero: the
sparse specialization does not clear its container, while the dense
`impl_gradient`, which starts with `setZero`, returns zero there. -/
theorem problem79_G_sparse_gradient_keeps_entries :
    (G.impl_gradient_sparse (SparseVector.empty ℝ 5) start 1).data =
      [(1, 1), (2, -4), (3, 1)] ∧
    (G.impl_gradient_sparse (G.impl_gradient_sparse (SparseVector.empty ℝ 5) start 1)
      start 0).coeff 3 = 1 ∧
    (G.impl_gradient_sparse (G.impl_gradient_sparse (SparseVector.empty ℝ 5) start 1)
      start 0).data = [(0, 1), (1, 4), (2, 12), (3, 1)] ∧
    G.impl_gradient (G.impl_gradient (fun _ => 0) (start : Fin 5 → ℝ) 1) start 0 3 = 0 := by
  refine ⟨?_, ?_, ?_, ?_⟩
  · simp [G.impl_gradient_sparse, SparseVector.empty, SparseVector.coeffRef, coeffRefData, start]
    norm_num
  · simp [G.impl_gradient_sparse, SparseVector.empty, SparseVector.coeffRef, SparseVector.coeff,
      coeffRefData, coeffData, start]
  · simp [G.impl_gradient_sparse, SparseVector.empty, SparseVector.coeffRef, coeffRefData, start]
    norm_num
  · simp [G.impl_gradient, setZero, Function.update_apply]

/-- C19 (amended).  For every `x` and every row `r` in `{0, 1, 2}`, when the
gradient container is empty before the call, the sparse `impl_gradient` of `G`
stores exactly the indices the row assigns, `{0, 1, 2}` for row 0, `{1, 2, 3}` for
row 1 and `{0, 4}` for row 2, and after the call every entry at an index the row
does not assign reads as exactly zero. -/
theorem problem79_G_sparse_gradient_unassigned_zero (x : Fin 5 → ℝ) (r : Fin 3) :
    (G.impl_gradient_sparse (SparseVector.empty ℝ 5) x ((r : ℕ) : Int)).indices =
      (![[0, 1, 2], [1, 2, 3], [0, 4]] : Fin 3 → List ℕ) r ∧
    ∀ j : ℕ, j ∉ (![[0, 1, 2], [1, 2, 3], [0, 4]] : Fin 3 → List ℕ) r →
      (G.impl_gradient_sparse (SparseVector.empty ℝ 5) x ((r : ℕ) : Int)).coeff j = 0 := by
  fin_cases r
  · refine ⟨by simp [G.impl_gradient_sparse, SparseVector.empty, SparseVector.coeffRef,
      SparseVector.indices, coeffRefData], fun j hj => ?_⟩
    simp only [Fin.zero_eta, Matrix.cons_val_zero, List.mem_cons, List.mem_singleton,
      List.mem_nil_iff, or_false, not_or] at hj
    obtain ⟨h0, h1, h2⟩ := hj
    simp [G.impl_gradient_sparse, SparseVector.empty, SparseVector.coeffRef, SparseVector.coeff,
      coeffRefData, coeffData, Ne.symm h0, Ne.symm h1, Ne.symm h2]
  · refine ⟨by simp [G.impl_gradient_sparse, SparseVector.empty, SparseVector.coeffRef,
      SparseVector.indices, coeffRefData], fun j hj => ?_⟩
    simp only [Fin.mk_one, Matrix.cons_val_one, Matrix.head_cons, List.mem_cons,
      List.mem_singleton, List.mem_nil_iff, or_false, not_or] at hj
    obtain ⟨h1, h2, h3⟩ := hj
    simp [G.impl_gradient_sparse, SparseVector.empty, SparseVector.coeffRef, SparseVector.coeff,
      coeffRefData, coeffData, Ne.symm h1, Ne.symm h2, Ne.symm h3]
  · refine ⟨by simp [G.impl_gradient_sparse, SparseVector.empty, SparseVector.coeffRef,
      SparseVector.indices, coeffRefData], fun j hj => ?_⟩
    simp only [Fin.reduceFinMk, Matrix.cons_val_two, Matrix.tail_cons, Matrix.head_cons,
      List.mem_cons, List.mem_singleton, List.mem_nil_iff, or_false, not_or] at hj
    obtain ⟨h0, h4⟩ := hj
    simp [G.impl_gradient_sparse, SparseVector.empty, SparseVector.coeffRef, SparseVector.coeff,
      coeffRefData, coeffData, Ne.symm h0, Ne.symm h4]

/-- C19 (instance).  Row 0 at the starting point on an empty container: index 3
is not assigned and reads zero. -/
theorem problem79_G_sparse_gradient_unassigned_zero_witness :
    3 ∉ ([0, 1, 2] : List ℕ) ∧
    (G.impl_gradient_sparse (SparseVector.empty ℝ 5) start 0).coeff 3 = 0 :=
  ⟨by decide, (problem79_G_sparse_gradient_unassigned_zero start 0).2 3 (by decide)⟩

end problem79

/-! ## HS071 problem set-up -/

namespace hs071

/-- C20.  For a problem whose objective has input size 4 and which has one bound
per variable, `initialize_problem` succeeds and the problem it leaves has the
same objective, one more constraint entry, `NonScalarG` of output dimension 2
with the two bounds `[25, +∞)` and `[40, 40]` and the two scales 1 and 1, the
bound `[1, 5]` on each of the 4 variables, and the starting point `(1, 5, 5, 1)`,
whose length is the input size of the objective and whose components lie in the
variable bounds. -/
theorem hs071_initialize_problem_invariants (pb : Problem ℝ) (alloc : ℕ → ℝ)
    (hn : pb.function.inputSize = 4) (hb : pb.argumentBounds.length = 4) :
    ∃ q : Problem ℝ, initialize_problem pb alloc = some q ∧
      q.function = pb.function ∧
      q.constraints = pb.constraints ++
        [⟨NonScalarG.new, [makeLowerInterval 25, makeInterval 40 40], [1, 1]⟩] ∧
      NonScalarG.new.outputSize = 2 ∧
      [makeLowerInterval (25 : ℝ), makeInterval 40 40].length = NonScalarG.new.outputSize ∧
      ([1, 1] : List ℝ).length = NonScalarG.new.outputSize ∧
      q.argumentBounds = List.replicate 4 (makeInterval 1 5) ∧
      q.argumentBounds.length = q.function.inputSize ∧
      q.startingPoint = some [1, 5, 5, 1] ∧
      q.startingPoint = some (List.ofFn (start : Fin 4 → ℝ)) ∧
      ([1, 5, 5, 1] : List ℝ).length = q.function.inputSize ∧
      List.Forall₂ Interval.contains q.argumentBounds [1, 5, 5, 1] := by
  obtain ⟨f, cs, bs, sp⟩ := pb
  simp only at hn hb
  match bs, hb with
  | [b0, b1, b2, b3], _ =>
    refine ⟨⟨f, cs ++ [⟨NonScalarG.new, [makeLowerInterval 25, makeInterval 40 40], [1, 1]⟩],
      List.replicate 4 (makeInterval 1 5), some [1, 5, 5, 1]⟩, ?_, rfl, rfl, rfl, rfl, rfl, rfl,
      ?_, rfl, ?_, ?_, ?_⟩
    · simp [initialize_problem, hn, List.range_succ, Problem.addConstraint, NonScalarG.new,
        List.replicate]
    · simp [hn]
    · simp [start]
    · simp [hn]
    · simp [Interval.contains, makeInterval, List.replicate]

/-- C20 (instance).  On the problem just built on the objective `F`, which has no
constraint yet, `initialize_problem` leaves exactly one constraint entry. -/
theorem hs071_initialize_problem_invariants_witness :
    (Problem.new F.new : Problem ℝ).function.inputSize = 4 ∧
    (Problem.new F.new : Problem ℝ).argumentBounds.length = 4 ∧
    ∃ q : Problem ℝ, initialize_problem (Problem.new F.new) (fun _ => 0) = some q ∧
      q.constraints =
        [⟨NonScalarG.new, [makeLowerInterval 25, makeInterval 40 40], [1, 1]⟩] ∧
      q.argumentBounds = List.replicate 4 (makeInterval 1 5) ∧
      q.startingPoint = some [1, 5, 5, 1] := by
  have hn : (Problem.new F.new : Problem ℝ).function.inputSize = 4 := rfl
  have hb : (Problem.new F.new : Problem ℝ).argumentBounds.length = 4 := by
    simp [Problem.new, F.new]
  obtain ⟨q, h1, _, h3, _, _, _, h7, _, h9, _⟩ :=
    hs071_initialize_problem_invariants (Problem.new F.new) (fun _ => 0) hn hb
  exact ⟨hn, hb, q, h1, by simpa [Problem.new] using h3, h7, h9⟩

end hs071

/-! ## Distance to a sphere: validation of the result -/

namespace distanceToSphere

/-- C21 (code defect).  On a result without solution the result switch reaches
`boost::get<SolverError> (res)`, which has no error to return: the exception
escapes and no check at all is executed, the check that the tag is
`SOLVER_VALUE` included.  On an error the switch executes that one check, which
fails.  In both cases the verdict is a failure and no number is compared with an
expected number. -/
theorem distanceToSphere_noSolution_throws :
    (SolverResult.noSolution : SolverResult ℝ 2 1).getSolverError = none ∧
    processResult (SolverResult.noSolution : SolverResult ℝ 2 1) = ⟨[], true⟩ ∧
    (processResult (SolverResult.noSolution : SolverResult ℝ 2 1)).success = false ∧
    (∀ what : String,
      processResult (SolverResult.solverError what : SolverResult ℝ 2 1) =
        ⟨[Check.equal .SOLVER_ERROR .SOLVER_VALUE], false⟩ ∧
      (Check.equal .SOLVER_ERROR .SOLVER_VALUE : Check ℝ).passes = false ∧
      (processResult (SolverResult.solverError what : SolverResult ℝ 2 1)).success = false ∧
      (processResult (SolverResult.solverError what : SolverResult ℝ 2 1)).checks.any
        Check.isClose = false) := by
  refine ⟨rfl, rfl, ?_, fun what => ⟨rfl, ?_, ?_, ?_⟩⟩
  · simp [processResult, SolverResult.which, SolverResult.getSolverError, Outcome.success]
  · simp [Check.passes]
  · simp [processResult, SolverResult.which, SolverResult.getSolverError, Outcome.success,
      Check.passes]
  · simp [processResult, SolverResult.which, SolverResult.getSolverError, Check.isClose]

/-- A difference within the fraction `1e-4` of a positive number is within
relative difference `1e-2` of it. -/
theorem relative_difference_le {a b : ℝ} (hb : 0 < b) (h : a ≤ 1e-4 * b) : a / b ≤ 1e-2 := by
  rw [div_le_iff₀ hb]
  have : (1e-4 : ℝ) * b ≤ 1e-2 * b := by
    apply mul_le_mul_of_nonneg_right _ hb.le
    norm_num
  linarith

/-- C22.  A result reported as solved and a result reported as solved with
warnings that carry the same solution vector and objective value leave the same
checks, hence get the same verdict; the verdict is a success only if every
component of the solution is within relative difference `1e-2` of the expected
component and the objective value is within relative difference `1e-2` of the
expected objective `1.0`.  Since Boost reads `check_tol = 1e-2` as a percentage,
a success even puts them within the fraction `1e-4`. -/
theorem distanceToSphere_solved_verdict (x : Fin 2 → ℝ) (value : Fin 1 → ℝ) :
    processResult (SolverResult.result x value) =
      processResult (SolverResult.resultWithWarnings x value) ∧
    ((processResult (SolverResult.result x value)).success = true →
      (∀ i : Fin 2, |x i - ExpectedResult.x i| / |ExpectedResult.x i| ≤ 1e-2) ∧
      |value 0 - ExpectedResult.fx| / |(ExpectedResult.fx : ℝ)| ≤ 1e-2 ∧
      (∀ i : Fin 2, |x i - ExpectedResult.x i| ≤ 1e-4 * |ExpectedResult.x i|) ∧
      |value 0 - ExpectedResult.fx| ≤ 1e-4 * |(ExpectedResult.fx : ℝ)|) := by
  refine ⟨rfl, ?_⟩
  intro h
  simp only [processResult, SolverResult.which, SolverResult.getResult, Outcome.success,
    checkSolution, Check.passes, List.finRange, check_tol, List.map, List.all_cons, List.all_nil,
    List.ofFn, Fin.foldr, Fin.foldr.loop, List.cons_append, List.nil_append, Bool.and_true,
    Bool.not_false, Bool.true_and, Bool.and_eq_true, decide_eq_true_eq] at h
  obtain ⟨⟨-, h0⟩, ⟨-, h1⟩, -, hv⟩ := h
  have e : (1e-2 : ℝ) / 100 = 1e-4 := by norm_num
  rw [e] at h0 h1 hv
  have p0 : 0 < |(ExpectedResult.x 0 : ℝ)| := by
    rw [ExpectedResult.x]
    norm_num
  have p1 : 0 < |(ExpectedResult.x 1 : ℝ)| := by
    rw [ExpectedResult.x]
    norm_num
  have pv : 0 < |(ExpectedResult.fx : ℝ)| := by
    rw [ExpectedResult.fx]
    norm_num
  refine ⟨?_, relative_difference_le pv hv, ?_, hv⟩
  · rw [Fin.forall_fin_two]
    exact ⟨relative_difference_le p0 h0, relative_difference_le p1 h1⟩
  · rw [Fin.forall_fin_two]
    exact ⟨h0, h1⟩

/-- C22 (instance).  The expected result itself, reported as solved, is a success,
so its components are within relative difference `1e-2` of the expected ones. -/
theorem distanceToSphere_solved_verdict_witness :
    (processResult (SolverResult.result (ExpectedResult.x : Fin 2 → ℝ)
      ![ExpectedResult.fx])).success = true ∧
    (∀ i : Fin 2, |(ExpectedResult.x i : ℝ) - ExpectedResult.x i| / |(ExpectedResult.x i : ℝ)| ≤
      1e-2) :=
  have h : (processResult (SolverResult.result (ExpectedResult.x : Fin 2 → ℝ)
      ![ExpectedResult.fx])).success = true := by
    simp [processResult, SolverResult.which, SolverResult.getResult, Outcome.success,
      checkSolution, Check.passes, List.finRange, check_tol]
    norm_num
  ⟨h, ((distanceToSphere_solved_verdict ExpectedResult.x ![ExpectedResult.fx]).2 h).1⟩

end distanceToSphere

/-! ## Dense outputs and prior contents -/

/-- The dense value and derivative methods of the distance to a sphere do not
read their output container. -/
theorem distanceToSphere_outputs_overwritten (cos sin : K → K) (self : distanceToSphere.F K)
    (result result' : Fin 3 → K) (gradient gradient' x : Fin 2 → K) (functionId : Int) :
    distanceToSphere.F.impl_compute cos sin self result x =
      distanceToSphere.F.impl_compute cos sin self result' x ∧
    distanceToSphere.F.impl_gradient cos sin self gradient x functionId =
      distanceToSphere.F.impl_gradient cos sin self gradient' x functionId := by
  constructor
  · rfl
  · unfold distanceToSphere.F.impl_gradient
    split_ifs <;> first
      | rfl
      | (dsimp only
         congr 1
         funext j
         fin_cases j <;> simp [Function.update_apply])

/-- The dense value and derivative methods of problem 27 do not read their
output container. -/
theorem problem27_outputs_overwritten (result result' : Fin 1 → K) (grad grad' x : Fin 3 → K)
    (s : Int) :
    problem27.F.impl_compute result x = problem27.F.impl_compute result' x ∧
    problem27.F.impl_gradient grad x s = problem27.F.impl_gradient grad' x s ∧
    problem27.G.impl_compute result x = problem27.G.impl_compute result' x ∧
    problem27.G.impl_gradient grad x s = problem27.G.impl_gradient grad' x s := by
  refine ⟨?_, ?_, ?_, ?_⟩ <;> funext j <;> fin_cases j <;>
    simp [problem27.F.impl_compute, problem27.F.impl_gradient, problem27.G.impl_compute,
      problem27.G.impl_gradient, Function.update_apply]

/-- The dense value and derivative methods of problem 79 do not read their
output container. -/
theorem problem79_outputs_overwritten (sqrt : K → K) (result result' : Fin 1 → K)
    (res res' : Fin 3 → K) (grad grad' x : Fin 5 → K) (functionId : Int) :
    problem79.F.impl_compute result x = problem79.F.impl_compute result' x ∧
    problem79.F.impl_gradient grad x functionId = problem79.F.impl_gradient grad' x functionId ∧
    problem79.G.impl_compute sqrt res x = problem79.G.impl_compute sqrt res' x ∧
    problem79.G.impl_gradient grad x functionId =
      problem79.G.impl_gradient grad' x functionId := by
  refine ⟨?_, ?_, ?_, rfl⟩ <;> funext j <;> fin_cases j <;>
    simp [problem79.F.impl_compute, problem79.F.impl_gradient, problem79.G.impl_compute,
      Function.update_apply]

/-- C23.  Every dense `impl_compute`, `impl_gradient` and `impl_hessian` of the
repository returns the same container whatever its output container held before
the call: the distance to a sphere, `F` and `G` of problem 27, `F` and `G` of
problem 79, `F` and `NonScalarG` of HS071.  The result depends on the argument
`x`, on the row index and, for the distance to a sphere, on the member `point_`
only. -/
theorem dense_outputs_independent_of_prior_contents (cos sin sqrt : K → K)
    (self : distanceToSphere.F K) (r1 r1' : Fin 1 → K) (r2 r2' x2 : Fin 2 → K)
    (r3 r3' x3 : Fin 3 → K) (r4 r4' x4 : Fin 4 → K) (r5 r5' x5 : Fin 5 → K)
    (h h' : Fin 4 → Fin 4 → K) (functionId : Int) :
    (distanceToSphere.F.impl_compute cos sin self r3 x2 =
        distanceToSphere.F.impl_compute cos sin self r3' x2 ∧
      distanceToSphere.F.impl_gradient cos sin self r2 x2 functionId =
        distanceToSphere.F.impl_gradient cos sin self r2' x2 functionId) ∧
    (problem27.F.impl_compute r1 x3 = problem27.F.impl_compute r1' x3 ∧
      problem27.F.impl_gradient r3 x3 functionId = problem27.F.impl_gradient r3' x3 functionId ∧
      problem27.G.impl_compute r1 x3 = problem27.G.impl_compute r1' x3 ∧
      problem27.G.impl_gradient r3 x3 functionId =
        problem27.G.impl_gradient r3' x3 functionId) ∧
    (problem79.F.impl_compute r1 x5 = problem79.F.impl_compute r1' x5 ∧
      problem79.F.impl_gradient r5 x5 functionId = problem79.F.impl_gradient r5' x5 functionId ∧
      problem79.G.impl_compute sqrt r3 x5 = problem79.G.impl_compute sqrt r3' x5 ∧
      problem79.G.impl_gradient r5 x5 functionId =
        problem79.G.impl_gradient r5' x5 functionId) ∧
    hs071.F.impl_compute r1 x4 = hs071.F.impl_compute r1' x4 ∧
    hs071.F.impl_gradient r4 x4 functionId = hs071.F.impl_gradient r4' x4 functionId ∧
    hs071.F.impl_hessian h x4 functionId = hs071.F.impl_hessian h' x4 functionId ∧
    hs071.NonScalarG.impl_compute r2 x4 = hs071.NonScalarG.impl_compute r2' x4 ∧
    hs071.NonScalarG.impl_gradient r4 x4 functionId =
      hs071.NonScalarG.impl_gradient r4' x4 functionId ∧
    hs071.NonScalarG.impl_hessian h x4 functionId =
      hs071.NonScalarG.impl_hessian h' x4 functionId :=
  ⟨distanceToSphere_outputs_overwritten cos sin self r3 r3' r2 r2' x2 functionId,
    problem27_outputs_overwritten r1 r1' r3 r3' x3 functionId,
    problem79_outputs_overwritten sqrt r1 r1' r3 r3' r5 r5' x5 functionId,
    rfl, rfl, rfl, rfl, rfl, rfl⟩

end roboptim
